import Mathlib

/-!
Verification of the jadis class-file decoder.

This file is a shallow embedding, in Lean 4, of the Rust sources of the
jadis JVM class-file disassembler (the decoder core: `byte_reader.rs`,
`utils.rs`, `access_flags.rs`, `constant_pool.rs`, `attribute.rs`,
`field.rs`, `method.rs`, `class_file.rs`).  Every definition mirrors the
corresponding Rust item; Rust panics (`panic!`, `assert!`, `expect`,
`todo!`) are modelled as `Except` errors with one error constructor per
panic family.  Machine integers are modelled as `Nat` (all the decoder's
arithmetic is read-only big-endian assembly of bytes, which cannot
overflow), and IEEE-754 float constants are kept as their raw big-endian
bit patterns.  Theorems about the spec's claims follow the definitions.
-/

set_option maxRecDepth 16384

namespace Jadis

/-! ## Error model

The Rust code fails by panicking.  Each panic site family is mapped to one
constructor, named after the spec's error taxonomy (§7):
`eof` for `ByteReader::read_n_bytes` reading past the buffer,
`badMagic` for the magic-number assert in `ClassFile::read_magic_number`,
`malformedTag` for the unknown-tag / unknown-method-handle-kind panics in
`Tag::from_tag` and `MethodHandleType::from_kind`,
`badPoolRef` for the `expect`/panic sites that fire when a constant-pool
index is absent or resolves to a wrong-variant entry,
`unknownAttribute` for the unknown-attribute-name panic in
`AttributeInfo::new`,
`lengthMismatch` for the `assert_eq!(attribute_length, 2)` in
`AttributeInfo::read_data_as_constant_value`,
`emptyFlags` for the `assert!(flags.len() > 0)` in every flag decoder,
`todoAttr` for the `todo!()` bodies of the unimplemented attribute readers,
and `outOfFuel` for exhaustion of the structural fuel that the embedding
uses to bound the recursion of the attribute decoder (the Rust recursion
is bounded by the input buffer, so with enough fuel this never occurs). -/
inductive JErr where
  | eof
  | badMagic
  | malformedTag
  | badPoolRef
  | unknownAttribute
  | lengthMismatch
  | emptyFlags
  | todoAttr
  | outOfFuel
deriving Repr, DecidableEq

/-- Decidable equality for `Except` results, used to settle concrete decoder
runs by `decide`. -/
instance {ε α : Type} [DecidableEq ε] [DecidableEq α] : DecidableEq (Except ε α) := fun x y =>
  match x, y with
  | .ok a, .ok b =>
      if h : a = b then isTrue (by rw [h]) else
        isFalse (by intro hc; injection hc; contradiction)
  | .ok _, .error _ => isFalse (fun hc => Except.noConfusion hc)
  | .error _, .ok _ => isFalse (fun hc => Except.noConfusion hc)
  | .error e, .error f =>
      if h : e = f then isTrue (by rw [h]) else
        isFalse (by intro hc; injection hc; contradiction)

/-! ## ByteReader (byte_reader.rs) -/

/-- Mirror of `ByteReader`: a byte buffer plus a cursor position.  Bytes are
modelled as `Nat` values (the decoder only ever assembles them big-endian). -/
structure ByteReader where
  data : List Nat
  position : Nat
deriving Repr, DecidableEq

/-- Mirror of `ByteReader::read_n_bytes`.  Note the faithful order of
operations: the position is advanced by `n` *before* the bounds check
(`self.position += n;` precedes the `self.data.get(from..to)` match), so the
returned reader has the advanced position even when the read fails.  The
failing branch (`None => panic!`) is modelled by returning `none` alongside
the already-advanced reader. -/
def ByteReader.read_n_bytes (r : ByteReader) (n : Nat) : ByteReader × Option (List Nat) :=
  let r' : ByteReader := { r with position := r.position + n }
  if r.position + n ≤ r.data.length then
    (r', some ((r.data.drop r.position).take n))
  else
    (r', none)

/-! ## Decode monad

All decoding functions thread the `ByteReader` and may fail; panics become
`Except` errors.  `DecM α` is exactly `ByteReader → Except JErr (α × ByteReader)`. -/
abbrev DecM (α : Type) : Type := StateT ByteReader (Except JErr) α

/-- Monadic wrapper of `ByteReader.read_n_bytes`: the panic on a failed read
becomes the `eof` error. -/
def readBytes (n : Nat) : DecM (List Nat) := fun r =>
  match r.read_n_bytes n with
  | (r1, some bytes) => .ok (bytes, r1)
  | (_, none) => .error .eof

/-- Lift a pure `Except` computation (a function that can panic but does not
read) into the decode monad. -/
def liftE {α : Type} (x : Except JErr α) : DecM α := fun r =>
  match x with
  | .ok a => .ok (a, r)
  | .error e => .error e

/-- A decode step that fails outright: the image of a Rust panic site. -/
def fail {α : Type} (e : JErr) : DecM α := fun _ => .error e

/-! ## Numeric decoders (utils.rs)

`to_u16`/`to_u32`/`to_i64`... assert the exact byte width and assemble the
value big-endian.  Every call site passes the result of a successful
`read_n_bytes n` with the matching `n`, so the width assertion can never
fire; the embedding therefore only models the big-endian assembly. -/

/-- Big-endian assembly of a byte list into a `Nat`. -/
def beNat (bytes : List Nat) : Nat := bytes.foldl (fun acc b => acc * 256 + b) 0

/-- Mirror of `utils::to_u16` (big-endian, two bytes at every call site). -/
def to_u16 (bytes : List Nat) : Nat := beNat bytes

/-- Mirror of `utils::to_u32` (big-endian, four bytes at every call site). -/
def to_u32 (bytes : List Nat) : Nat := beNat bytes

/-- Mirror of `utils::to_i32`: two's-complement reading of four big-endian
bytes. -/
def to_i32 (bytes : List Nat) : Int :=
  let v := beNat bytes
  if v < 2 ^ 31 then (v : Int) else (v : Int) - 2 ^ 32

/-- Mirror of `utils::to_i64`: two's-complement reading of eight big-endian
bytes. -/
def to_i64 (bytes : List Nat) : Int :=
  let v := beNat bytes
  if v < 2 ^ 63 then (v : Int) else (v : Int) - 2 ^ 64

/-- Mirror of `utils::to_f32`: the IEEE-754 bit pattern is preserved; the
embedding keeps the raw 32-bit pattern. -/
def to_f32 (bytes : List Nat) : Nat := beNat bytes

/-- Mirror of `utils::to_f64`: the IEEE-754 bit pattern is preserved; the
embedding keeps the raw 64-bit pattern. -/
def to_f64 (bytes : List Nat) : Nat := beNat bytes

/-- Mirror of `utils::bitmask_matches`: `value & bitmask == bitmask`. -/
def bitmask_matches (value bitmask : Nat) : Bool := value &&& bitmask == bitmask

/-! ## Flag decoders (access_flags.rs)

Each domain's `from_u16` pushes a variant for every table bit present in the
mask, in the source's (ascending bit value) order, and then asserts that at
least one flag was recognized.  The assertion is modelled by the
`emptyFlags` error. -/

/-- Mirror of `ClassAccessFlags`. -/
inductive ClassAccessFlags where
  | AccPublic | AccFinal | AccSuper | AccInterface | AccAbstract
  | AccSynthetic | AccAnnotationFlag | AccEnum | AccModule
deriving Repr, DecidableEq

/-- Mirror of `ClassAccessFlags::from_u16`. -/
def ClassAccessFlags.from_u16 (value : Nat) : Except JErr (List ClassAccessFlags) :=
  let flags : List ClassAccessFlags :=
    (if bitmask_matches value 0x0001 then [.AccPublic] else []) ++
    (if bitmask_matches value 0x0010 then [.AccFinal] else []) ++
    (if bitmask_matches value 0x0020 then [.AccSuper] else []) ++
    (if bitmask_matches value 0x0200 then [.AccInterface] else []) ++
    (if bitmask_matches value 0x0400 then [.AccAbstract] else []) ++
    (if bitmask_matches value 0x1000 then [.AccSynthetic] else []) ++
    (if bitmask_matches value 0x2000 then [.AccAnnotationFlag] else []) ++
    (if bitmask_matches value 0x4000 then [.AccEnum] else []) ++
    (if bitmask_matches value 0x8000 then [.AccModule] else [])
  if flags.length > 0 then .ok flags else .error .emptyFlags

/-- Mirror of `FieldAccessFlags`. -/
inductive FieldAccessFlags where
  | AccPublic | AccPrivate | AccProtected | AccStatic | AccFinal
  | AccVolatile | AccTransient | AccSynthetic | AccEnum
deriving Repr, DecidableEq

/-- Mirror of `FieldAccessFlags::from_u16`. -/
def FieldAccessFlags.from_u16 (value : Nat) : Except JErr (List FieldAccessFlags) :=
  let flags : List FieldAccessFlags :=
    (if bitmask_matches value 0x0001 then [.AccPublic] else []) ++
    (if bitmask_matches value 0x0002 then [.AccPrivate] else []) ++
    (if bitmask_matches value 0x0004 then [.AccProtected] else []) ++
    (if bitmask_matches value 0x0008 then [.AccStatic] else []) ++
    (if bitmask_matches value 0x0010 then [.AccFinal] else []) ++
    (if bitmask_matches value 0x0040 then [.AccVolatile] else []) ++
    (if bitmask_matches value 0x0080 then [.AccTransient] else []) ++
    (if bitmask_matches value 0x1000 then [.AccSynthetic] else []) ++
    (if bitmask_matches value 0x4000 then [.AccEnum] else [])
  if flags.length > 0 then .ok flags else .error .emptyFlags

/-- Mirror of `MethodAccessFlags`. -/
inductive MethodAccessFlags where
  | AccPublic | AccPrivate | AccProtected | AccStatic | AccFinal
  | AccSynchronized | AccBridge | AccVarArgs | AccNative | AccAbstract
  | AccStrict | AccSynthetic
deriving Repr, DecidableEq

/-- Mirror of `MethodAccessFlags::from_u16`. -/
def MethodAccessFlags.from_u16 (value : Nat) : Except JErr (List MethodAccessFlags) :=
  let flags : List MethodAccessFlags :=
    (if bitmask_matches value 0x0001 then [.AccPublic] else []) ++
    (if bitmask_matches value 0x0002 then [.AccPrivate] else []) ++
    (if bitmask_matches value 0x0004 then [.AccProtected] else []) ++
    (if bitmask_matches value 0x0008 then [.AccStatic] else []) ++
    (if bitmask_matches value 0x0010 then [.AccFinal] else []) ++
    (if bitmask_matches value 0x0020 then [.AccSynchronized] else []) ++
    (if bitmask_matches value 0x0040 then [.AccBridge] else []) ++
    (if bitmask_matches value 0x0080 then [.AccVarArgs] else []) ++
    (if bitmask_matches value 0x0100 then [.AccNative] else []) ++
    (if bitmask_matches value 0x0400 then [.AccAbstract] else []) ++
    (if bitmask_matches value 0x0800 then [.AccStrict] else []) ++
    (if bitmask_matches value 0x1000 then [.AccSynthetic] else [])
  if flags.length > 0 then .ok flags else .error .emptyFlags

/-- Mirror of `NestedClassAccessFlags`. -/
inductive NestedClassAccessFlags where
  | AccPublic | AccPrivate | AccProtected | AccStatic | AccFinal
  | AccInterface | AccAbstract | AccSynthetic | AccAnnotationFlag | AccEnum
deriving Repr, DecidableEq

/-- Mirror of `NestedClassAccessFlags::from_u16`. -/
def NestedClassAccessFlags.from_u16 (value : Nat) : Except JErr (List NestedClassAccessFlags) :=
  let flags : List NestedClassAccessFlags :=
    (if bitmask_matches value 0x0001 then [.AccPublic] else []) ++
    (if bitmask_matches value 0x0002 then [.AccPrivate] else []) ++
    (if bitmask_matches value 0x0004 then [.AccProtected] else []) ++
    (if bitmask_matches value 0x0008 then [.AccStatic] else []) ++
    (if bitmask_matches value 0x0010 then [.AccFinal] else []) ++
    (if bitmask_matches value 0x0200 then [.AccInterface] else []) ++
    (if bitmask_matches value 0x0400 then [.AccAbstract] else []) ++
    (if bitmask_matches value 0x1000 then [.AccSynthetic] else []) ++
    (if bitmask_matches value 0x2000 then [.AccAnnotationFlag] else []) ++
    (if bitmask_matches value 0x4000 then [.AccEnum] else [])
  if flags.length > 0 then .ok flags else .error .emptyFlags

/-! ### Canonical flag tables (statement side)

The claims speak of "the variants whose table bits are set in the mask,
ordered by ascending bit value of the table".  The tables below restate the
bit → variant mapping of §4.3 of the spec; `flagsOfTable` computes exactly
that filtered, table-ordered list. -/

/-- Bit table for the class-flag domain, in source order. -/
def classFlagTable : List (Nat × ClassAccessFlags) :=
  [(0x0001, .AccPublic), (0x0010, .AccFinal), (0x0020, .AccSuper),
   (0x0200, .AccInterface), (0x0400, .AccAbstract), (0x1000, .AccSynthetic),
   (0x2000, .AccAnnotationFlag), (0x4000, .AccEnum), (0x8000, .AccModule)]

/-- Bit table for the method-flag domain, in source order. -/
def methodFlagTable : List (Nat × MethodAccessFlags) :=
  [(0x0001, .AccPublic), (0x0002, .AccPrivate), (0x0004, .AccProtected),
   (0x0008, .AccStatic), (0x0010, .AccFinal), (0x0020, .AccSynchronized),
   (0x0040, .AccBridge), (0x0080, .AccVarArgs), (0x0100, .AccNative),
   (0x0400, .AccAbstract), (0x0800, .AccStrict), (0x1000, .AccSynthetic)]

/-- The variants of a bit table whose bits are set in `value`, in table
order. -/
def flagsOfTable {α : Type} (value : Nat) (table : List (Nat × α)) : List α :=
  (table.filter (fun p => bitmask_matches value p.1)).map Prod.snd

theorem flagsOfTable_nil {α : Type} (value : Nat) :
    flagsOfTable value ([] : List (Nat × α)) = [] := rfl

theorem flagsOfTable_cons {α : Type} (value b : Nat) (f : α) (rest : List (Nat × α)) :
    flagsOfTable value ((b, f) :: rest) =
      (if bitmask_matches value b then [f] else []) ++ flagsOfTable value rest := by
  by_cases h : bitmask_matches value b = true <;>
    simp [flagsOfTable, List.filter_cons, h]

/-- The trailing `assert!(flags.len() > 0)` of a flag decoder, reshaped as a
case split on the flag list being empty. -/
theorem assertNonempty_eq {α : Type} [DecidableEq α] (l : List α) :
    (if l.length > 0 then (Except.ok l : Except JErr (List α)) else .error .emptyFlags) =
      (if l = [] then .error .emptyFlags else .ok l) := by
  cases l <;> simp

/-- A failing flag decoder (the `assert!` shape) can only report
`emptyFlags`. -/
theorem assertNonempty_error {α : Type} {l : List α} {e : JErr}
    (h : (if l.length > 0 then (Except.ok l : Except JErr (List α))
        else .error .emptyFlags) = .error e) : e = .emptyFlags := by
  split at h
  · exact Except.noConfusion h
  · injection h with h2
    exact h2.symm

/-- `ClassAccessFlags.from_u16` computes the table-filtered flag list, and its
assertion fires exactly on an empty result. -/
theorem class_from_u16_eq (m : Nat) :
    ClassAccessFlags.from_u16 m =
      if flagsOfTable m classFlagTable = [] then .error .emptyFlags
      else .ok (flagsOfTable m classFlagTable) := by
  simp only [ClassAccessFlags.from_u16, classFlagTable, flagsOfTable_cons, flagsOfTable_nil,
    List.append_nil, List.append_assoc]
  exact assertNonempty_eq (α := ClassAccessFlags) _

/-- `MethodAccessFlags.from_u16` computes the table-filtered flag list, and its
assertion fires exactly on an empty result. -/
theorem method_from_u16_eq (m : Nat) :
    MethodAccessFlags.from_u16 m =
      if flagsOfTable m methodFlagTable = [] then .error .emptyFlags
      else .ok (flagsOfTable m methodFlagTable) := by
  simp only [MethodAccessFlags.from_u16, methodFlagTable, flagsOfTable_cons, flagsOfTable_nil,
    List.append_nil, List.append_assoc]
  exact assertNonempty_eq (α := MethodAccessFlags) _

/-- Masking a value with a superset mask does not change a bit test against a
sub-mask. -/
theorem bitmask_matches_and (m c b : Nat) (h : c &&& b = b) :
    bitmask_matches (m &&& c) b = bitmask_matches m b := by
  unfold bitmask_matches
  rw [Nat.and_assoc, h]

/-- C4: for every 16-bit mask with at least one recognized bit, `from_u16`
returns exactly the variants whose table bits are set, in the table's
ascending-bit order; the class and method tables are strictly ascending in
bit value; class mask 0x4420 decodes to [AccSuper, AccAbstract, AccEnum];
and a mask whose recognized part is a single table entry decodes to that
single variant. -/
theorem c4_flag_mask_decoding :
    (∀ m : Nat, flagsOfTable m classFlagTable ≠ [] →
        ClassAccessFlags.from_u16 m = .ok (flagsOfTable m classFlagTable)) ∧
    (∀ m : Nat, flagsOfTable m methodFlagTable ≠ [] →
        MethodAccessFlags.from_u16 m = .ok (flagsOfTable m methodFlagTable)) ∧
    List.Pairwise (· < ·) (classFlagTable.map Prod.fst) ∧
    List.Pairwise (· < ·) (methodFlagTable.map Prod.fst) ∧
    ClassAccessFlags.from_u16 0x4420 = .ok [.AccSuper, .AccAbstract, .AccEnum] ∧
    (∀ (m : Nat) (f : ClassAccessFlags), flagsOfTable m classFlagTable = [f] →
        ClassAccessFlags.from_u16 m = .ok [f]) ∧
    (∀ (m : Nat) (f : MethodAccessFlags), flagsOfTable m methodFlagTable = [f] →
        MethodAccessFlags.from_u16 m = .ok [f]) := by
  refine ⟨?_, ?_, by decide, by decide, by rfl, ?_, ?_⟩
  · intro m h
    rw [class_from_u16_eq, if_neg h]
  · intro m h
    rw [method_from_u16_eq, if_neg h]
  · intro m f h
    rw [class_from_u16_eq, h]
    rfl
  · intro m f h
    rw [method_from_u16_eq, h]
    rfl

/-- Witness for C4: concrete instantiation at class mask 0x0021 (= AccPublic,
AccSuper), discharging the nonempty-filter hypothesis. -/
theorem c4_flag_mask_decoding_witness :
    ClassAccessFlags.from_u16 0x0021 = .ok [.AccPublic, .AccSuper] :=
  c4_flag_mask_decoding.1 0x0021 (by decide)

/-- C5 counterexample: on the all-zero mask the class flag decoder does not
return an empty set — the `assert!(flags.len() > 0)` fires (modelled as the
`emptyFlags` error), so the claim "from_u16 succeeds and returns the empty
set" is false at mask 0. -/
theorem c5_counterexample :
    ClassAccessFlags.from_u16 0 = .error .emptyFlags ∧
    ∀ l, ClassAccessFlags.from_u16 0 ≠ .ok l := by
  refine ⟨by rfl, ?_⟩
  intro l h
  rw [show ClassAccessFlags.from_u16 0 = .error .emptyFlags from rfl] at h
  exact Except.noConfusion h

/-- C5 (amended): for every mask none of whose bits is in the class table
(including the all-zero mask), `from_u16` fails via the internal 'at least
one flag' assertion.  Bits outside the table are indeed silently skipped —
masking a value down to the table's bits never changes the result — but an
empty recognized set fires the assertion instead of returning `[]`. -/
theorem c5_unrecognized_bits :
    (∀ m : Nat, flagsOfTable m classFlagTable = [] →
        ClassAccessFlags.from_u16 m = .error .emptyFlags) ∧
    (∀ m : Nat, ClassAccessFlags.from_u16 (m &&& 0xF631) = ClassAccessFlags.from_u16 m) := by
  constructor
  · intro m h
    rw [class_from_u16_eq, h]
    rfl
  · intro m
    simp only [ClassAccessFlags.from_u16]
    rw [bitmask_matches_and m 0xF631 0x0001 (by decide),
      bitmask_matches_and m 0xF631 0x0010 (by decide),
      bitmask_matches_and m 0xF631 0x0020 (by decide),
      bitmask_matches_and m 0xF631 0x0200 (by decide),
      bitmask_matches_and m 0xF631 0x0400 (by decide),
      bitmask_matches_and m 0xF631 0x1000 (by decide),
      bitmask_matches_and m 0xF631 0x2000 (by decide),
      bitmask_matches_and m 0xF631 0x4000 (by decide),
      bitmask_matches_and m 0xF631 0x8000 (by decide)]

/-- Witness for C5's amended theorem: concrete instantiation at mask 0x0108
(bits 0x0100 and 0x0008, neither in the class table). -/
theorem c5_unrecognized_bits_witness :
    ClassAccessFlags.from_u16 0x0108 = .error .emptyFlags :=
  c5_unrecognized_bits.1 0x0108 (by decide)

/-- C10: `ByteReader.read_n_bytes n` always leaves the cursor advanced by
exactly `n` — the increment happens before the bounds check — so a read that
fails because `position + n` exceeds the buffer length still returns a reader
whose position lies past the end of the buffer. -/
theorem c10_read_n_bytes_advances :
    ∀ (r : ByteReader) (n : Nat),
      ((r.read_n_bytes n).1).position = r.position + n ∧
      (r.data.length < r.position + n → (r.read_n_bytes n).2 = none) := by
  intro r n
  unfold ByteReader.read_n_bytes
  constructor
  · split <;> rfl
  · intro h
    split
    · omega
    · rfl

/-- Witness for C10: a 2-byte buffer read for 5 bytes from position 0 ends at
position 5 (past the end) and yields no data. -/
theorem c10_read_n_bytes_advances_witness :
    (((⟨[1, 2], 0⟩ : ByteReader).read_n_bytes 5).1).position = 0 + 5 ∧
    ((⟨[1, 2], 0⟩ : ByteReader).read_n_bytes 5).2 = none :=
  ⟨(c10_read_n_bytes_advances ⟨[1, 2], 0⟩ 5).1,
   (c10_read_n_bytes_advances ⟨[1, 2], 0⟩ 5).2 (by decide)⟩

/-! ## Constant pool (constant_pool.rs) -/

/-- Mirror of `constant_pool::Tag`. -/
inductive Tag where
  | ConstantUtf8 | ConstantInteger | ConstantFloat | ConstantLong | ConstantDouble
  | ConstantClass | ConstantString | ConstantFieldRef | ConstantMethodRef
  | ConstantInterfaceMethodRef | ConstantNameAndType | ConstantMethodHandle
  | ConstantMethodType | ConstantDynamic | ConstantInvokeDynamic
  | ConstantModule | ConstantPackage
deriving Repr, DecidableEq

/-- Mirror of `Tag::from_tag`: the seventeen recognized tag byte codes; any
other value panics ("Unknown tag"), modelled by the `malformedTag` error. -/
def Tag.from_tag (tag : Nat) : Except JErr Tag :=
  match tag with
  | 1 => .ok .ConstantUtf8
  | 3 => .ok .ConstantInteger
  | 4 => .ok .ConstantFloat
  | 5 => .ok .ConstantLong
  | 6 => .ok .ConstantDouble
  | 7 => .ok .ConstantClass
  | 8 => .ok .ConstantString
  | 9 => .ok .ConstantFieldRef
  | 10 => .ok .ConstantMethodRef
  | 11 => .ok .ConstantInterfaceMethodRef
  | 12 => .ok .ConstantNameAndType
  | 15 => .ok .ConstantMethodHandle
  | 16 => .ok .ConstantMethodType
  | 17 => .ok .ConstantDynamic
  | 18 => .ok .ConstantInvokeDynamic
  | 19 => .ok .ConstantModule
  | 20 => .ok .ConstantPackage
  | _ => .error .malformedTag

/-- Mirror of `constant_pool::MethodHandleType`. -/
inductive MethodHandleType where
  | RefGetField | RefGetStatic | RefPutField | RefPutStatic
  | RefInvokeVirtual | RefInvokeStatic | RefInvokeSpecial
  | RefNewInvokeSpecial | RefInvokeInterface
deriving Repr, DecidableEq

/-- Mirror of `MethodHandleType::from_kind`: kinds 1..9 map to the named
variants; any other value panics ("Unknown method handle type"), modelled by
the `malformedTag` error. -/
def MethodHandleType.from_kind (kind : Nat) : Except JErr MethodHandleType :=
  match kind with
  | 1 => .ok .RefGetField
  | 2 => .ok .RefGetStatic
  | 3 => .ok .RefPutField
  | 4 => .ok .RefPutStatic
  | 5 => .ok .RefInvokeVirtual
  | 6 => .ok .RefInvokeStatic
  | 7 => .ok .RefInvokeSpecial
  | 8 => .ok .RefNewInvokeSpecial
  | 9 => .ok .RefInvokeInterface
  | _ => .error .malformedTag

/-- Mirror of `ConstantUtf8Info`.  The source stores
`String::from_utf8_lossy(bytes)`; the embedding keeps the raw bytes (the
attribute-name strings the decoder compares against are ASCII, and the lossy
decoding of a byte list equals an ASCII string exactly when the bytes are
that string's bytes, so byte-list equality is a faithful model of the
source's string comparison). -/
structure ConstantUtf8Info where
  constant_pool_index : Nat
  length : Nat
  string : List Nat
deriving Repr, DecidableEq

/-- Mirror of `ConstantIntegerInfo`. -/
structure ConstantIntegerInfo where
  constant_pool_index : Nat
  value : Int
deriving Repr, DecidableEq

/-- Mirror of `ConstantFloatInfo`; `value` is the raw IEEE-754 bit pattern. -/
structure ConstantFloatInfo where
  constant_pool_index : Nat
  value : Nat
deriving Repr, DecidableEq

/-- Mirror of `ConstantLongInfo`. -/
structure ConstantLongInfo where
  constant_pool_index : Nat
  value : Int
deriving Repr, DecidableEq

/-- Mirror of `ConstantDoubleInfo`; `value` is the raw IEEE-754 bit pattern. -/
structure ConstantDoubleInfo where
  constant_pool_index : Nat
  value : Nat
deriving Repr, DecidableEq

/-- Mirror of `ConstantClassInfo`. -/
structure ConstantClassInfo where
  constant_pool_index : Nat
  name_index : Nat
deriving Repr, DecidableEq

/-- Mirror of `ConstantStringInfo`. -/
structure ConstantStringInfo where
  constant_pool_index : Nat
  string_index : Nat
deriving Repr, DecidableEq

/-- Mirror of `ConstantFieldRefInfo`. -/
structure ConstantFieldRefInfo where
  constant_pool_index : Nat
  class_index : Nat
  name_and_type_index : Nat
deriving Repr, DecidableEq

/-- Mirror of `ConstantMethodRefInfo`. -/
structure ConstantMethodRefInfo where
  constant_pool_index : Nat
  class_index : Nat
  name_and_type_index : Nat
deriving Repr, DecidableEq

/-- Mirror of `ConstantInterfaceMethodRefInfo`. -/
structure ConstantInterfaceMethodRefInfo where
  constant_pool_index : Nat
  class_index : Nat
  name_and_type_index : Nat
deriving Repr, DecidableEq

/-- Mirror of `ConstantNameAndTypeInfo`. -/
structure ConstantNameAndTypeInfo where
  constant_pool_index : Nat
  name_index : Nat
  descriptor_index : Nat
deriving Repr, DecidableEq

/-- Mirror of `ConstantMethodHandleInfo`. -/
structure ConstantMethodHandleInfo where
  constant_pool_index : Nat
  reference_kind : MethodHandleType
  reference_index : Nat
deriving Repr, DecidableEq

/-- Mirror of `ConstantMethodTypeInfo`. -/
structure ConstantMethodTypeInfo where
  constant_pool_index : Nat
  descriptor_index : Nat
deriving Repr, DecidableEq

/-- Mirror of `ConstantDynamicInfo`. -/
structure ConstantDynamicInfo where
  constant_pool_index : Nat
  bootstrap_method_attr_index : Nat
  name_and_type_index : Nat
deriving Repr, DecidableEq

/-- Mirror of `ConstantInvokeDynamicInfo`. -/
structure ConstantInvokeDynamicInfo where
  constant_pool_index : Nat
  bootstrap_method_attr_index : Nat
  name_and_type_index : Nat
deriving Repr, DecidableEq

/-- Mirror of `ConstantModuleInfo`. -/
structure ConstantModuleInfo where
  constant_pool_index : Nat
  name_index : Nat
deriving Repr, DecidableEq

/-- Mirror of `ConstantPackageInfo`. -/
structure ConstantPackageInfo where
  constant_pool_index : Nat
  name_index : Nat
deriving Repr, DecidableEq

/-- Mirror of `ConstantPoolInfo`.  The source pairs a `Tag` with a boxed
`dyn ConstantPoolInfoData`; since the tag always agrees with the payload's
concrete type, the embedding folds the pair into one constructor per
variant, each carrying the variant's `*Info` record. -/
inductive ConstantPoolInfo where
  | constantUtf8 (info : ConstantUtf8Info)
  | constantInteger (info : ConstantIntegerInfo)
  | constantFloat (info : ConstantFloatInfo)
  | constantLong (info : ConstantLongInfo)
  | constantDouble (info : ConstantDoubleInfo)
  | constantClass (info : ConstantClassInfo)
  | constantString (info : ConstantStringInfo)
  | constantFieldRef (info : ConstantFieldRefInfo)
  | constantMethodRef (info : ConstantMethodRefInfo)
  | constantInterfaceMethodRef (info : ConstantInterfaceMethodRefInfo)
  | constantNameAndType (info : ConstantNameAndTypeInfo)
  | constantMethodHandle (info : ConstantMethodHandleInfo)
  | constantMethodType (info : ConstantMethodTypeInfo)
  | constantDynamic (info : ConstantDynamicInfo)
  | constantInvokeDynamic (info : ConstantInvokeDynamicInfo)
  | constantModule (info : ConstantModuleInfo)
  | constantPackage (info : ConstantPackageInfo)
deriving Repr, DecidableEq

/-- The `tag` field of a `ConstantPoolInfo` value. -/
def ConstantPoolInfo.tag : ConstantPoolInfo → Tag
  | .constantUtf8 _ => .ConstantUtf8
  | .constantInteger _ => .ConstantInteger
  | .constantFloat _ => .ConstantFloat
  | .constantLong _ => .ConstantLong
  | .constantDouble _ => .ConstantDouble
  | .constantClass _ => .ConstantClass
  | .constantString _ => .ConstantString
  | .constantFieldRef _ => .ConstantFieldRef
  | .constantMethodRef _ => .ConstantMethodRef
  | .constantInterfaceMethodRef _ => .ConstantInterfaceMethodRef
  | .constantNameAndType _ => .ConstantNameAndType
  | .constantMethodHandle _ => .ConstantMethodHandle
  | .constantMethodType _ => .ConstantMethodType
  | .constantDynamic _ => .ConstantDynamic
  | .constantInvokeDynamic _ => .ConstantInvokeDynamic
  | .constantModule _ => .ConstantModule
  | .constantPackage _ => .ConstantPackage

/-- Mirror of `ConstantPoolInfo::try_cast_into_class` (downcast to
`ConstantClassInfo`). -/
def ConstantPoolInfo.try_cast_into_class : ConstantPoolInfo → Option ConstantClassInfo
  | .constantClass info => some info
  | _ => none

/-- Mirror of `ConstantPoolInfo::try_cast_into_utf8` (downcast to
`ConstantUtf8Info`). -/
def ConstantPoolInfo.try_cast_into_utf8 : ConstantPoolInfo → Option ConstantUtf8Info
  | .constantUtf8 info => some info
  | _ => none

/-- Mirror of `ConstantPoolInfo::read_data_as_utf8`. -/
def read_data_as_utf8 (constant_pool_index : Nat) : DecM ConstantUtf8Info := do
  let length := to_u16 (← readBytes 2)
  let s ← readBytes length
  pure ⟨constant_pool_index, length, s⟩

/-- Mirror of `ConstantPoolInfo::read_data_as_integer`. -/
def read_data_as_integer (constant_pool_index : Nat) : DecM ConstantIntegerInfo := do
  pure ⟨constant_pool_index, to_i32 (← readBytes 4)⟩

/-- Mirror of `ConstantPoolInfo::read_data_as_float`. -/
def read_data_as_float (constant_pool_index : Nat) : DecM ConstantFloatInfo := do
  pure ⟨constant_pool_index, to_f32 (← readBytes 4)⟩

/-- Mirror of `ConstantPoolInfo::read_data_as_long`. -/
def read_data_as_long (constant_pool_index : Nat) : DecM ConstantLongInfo := do
  pure ⟨constant_pool_index, to_i64 (← readBytes 8)⟩

/-- Mirror of `ConstantPoolInfo::read_data_as_double`. -/
def read_data_as_double (constant_pool_index : Nat) : DecM ConstantDoubleInfo := do
  pure ⟨constant_pool_index, to_f64 (← readBytes 8)⟩

/-- Mirror of `ConstantPoolInfo::read_data_as_class`. -/
def read_data_as_class (constant_pool_index : Nat) : DecM ConstantClassInfo := do
  pure ⟨constant_pool_index, to_u16 (← readBytes 2)⟩

/-- Mirror of `ConstantPoolInfo::read_data_as_string`. -/
def read_data_as_string (constant_pool_index : Nat) : DecM ConstantStringInfo := do
  pure ⟨constant_pool_index, to_u16 (← readBytes 2)⟩

/-- Mirror of `ConstantPoolInfo::read_data_as_field_ref`. -/
def read_data_as_field_ref (constant_pool_index : Nat) : DecM ConstantFieldRefInfo := do
  let class_index := to_u16 (← readBytes 2)
  let name_and_type_index := to_u16 (← readBytes 2)
  pure ⟨constant_pool_index, class_index, name_and_type_index⟩

/-- Mirror of `ConstantPoolInfo::read_data_as_method_ref`. -/
def read_data_as_method_ref (constant_pool_index : Nat) : DecM ConstantMethodRefInfo := do
  let class_index := to_u16 (← readBytes 2)
  let name_and_type_index := to_u16 (← readBytes 2)
  pure ⟨constant_pool_index, class_index, name_and_type_index⟩

/-- Mirror of `ConstantPoolInfo::read_data_as_interface_method_ref`. -/
def read_data_as_interface_method_ref (constant_pool_index : Nat) :
    DecM ConstantInterfaceMethodRefInfo := do
  let class_index := to_u16 (← readBytes 2)
  let name_and_type_index := to_u16 (← readBytes 2)
  pure ⟨constant_pool_index, class_index, name_and_type_index⟩

/-- Mirror of `ConstantPoolInfo::read_data_as_name_and_type`. -/
def read_data_as_name_and_type (constant_pool_index : Nat) : DecM ConstantNameAndTypeInfo := do
  let name_index := to_u16 (← readBytes 2)
  let descriptor_index := to_u16 (← readBytes 2)
  pure ⟨constant_pool_index, name_index, descriptor_index⟩

/-- Mirror of `ConstantPoolInfo::read_data_as_method_handle`. -/
def read_data_as_method_handle (constant_pool_index : Nat) : DecM ConstantMethodHandleInfo := do
  let kindByte ← readBytes 1
  let reference_kind ← liftE (MethodHandleType.from_kind (kindByte.headD 0))
  let reference_index := to_u16 (← readBytes 2)
  pure ⟨constant_pool_index, reference_kind, reference_index⟩

/-- Mirror of `ConstantPoolInfo::read_data_as_method_type`. -/
def read_data_as_method_type (constant_pool_index : Nat) : DecM ConstantMethodTypeInfo := do
  pure ⟨constant_pool_index, to_u16 (← readBytes 2)⟩

/-- Mirror of `ConstantPoolInfo::read_data_as_dynamic`. -/
def read_data_as_dynamic (constant_pool_index : Nat) : DecM ConstantDynamicInfo := do
  let bootstrap_method_attr_index := to_u16 (← readBytes 2)
  let name_and_type_index := to_u16 (← readBytes 2)
  pure ⟨constant_pool_index, bootstrap_method_attr_index, name_and_type_index⟩

/-- Mirror of `ConstantPoolInfo::read_data_as_invoke_dynamic`. -/
def read_data_as_invoke_dynamic (constant_pool_index : Nat) : DecM ConstantInvokeDynamicInfo := do
  let bootstrap_method_attr_index := to_u16 (← readBytes 2)
  let name_and_type_index := to_u16 (← readBytes 2)
  pure ⟨constant_pool_index, bootstrap_method_attr_index, name_and_type_index⟩

/-- Mirror of `ConstantPoolInfo::read_data_as_module`. -/
def read_data_as_module (constant_pool_index : Nat) : DecM ConstantModuleInfo := do
  pure ⟨constant_pool_index, to_u16 (← readBytes 2)⟩

/-- Mirror of `ConstantPoolInfo::read_data_as_package`. -/
def read_data_as_package (constant_pool_index : Nat) : DecM ConstantPackageInfo := do
  pure ⟨constant_pool_index, to_u16 (← readBytes 2)⟩

/-- The dispatch match of `ConstantPoolInfo::new`: for each decoded `Tag`,
run the matching variant decoder and wrap the result (the source builds
`Self { tag, data: Box::new(...) }` in each arm). -/
def readEntryForTag (index : Nat) : Tag → DecM ConstantPoolInfo
  | .ConstantUtf8 => do pure (.constantUtf8 (← read_data_as_utf8 index))
  | .ConstantInteger => do pure (.constantInteger (← read_data_as_integer index))
  | .ConstantFloat => do pure (.constantFloat (← read_data_as_float index))
  | .ConstantLong => do pure (.constantLong (← read_data_as_long index))
  | .ConstantDouble => do pure (.constantDouble (← read_data_as_double index))
  | .ConstantClass => do pure (.constantClass (← read_data_as_class index))
  | .ConstantString => do pure (.constantString (← read_data_as_string index))
  | .ConstantFieldRef => do pure (.constantFieldRef (← read_data_as_field_ref index))
  | .ConstantMethodRef => do pure (.constantMethodRef (← read_data_as_method_ref index))
  | .ConstantInterfaceMethodRef => do
      pure (.constantInterfaceMethodRef (← read_data_as_interface_method_ref index))
  | .ConstantNameAndType => do pure (.constantNameAndType (← read_data_as_name_and_type index))
  | .ConstantMethodHandle => do pure (.constantMethodHandle (← read_data_as_method_handle index))
  | .ConstantMethodType => do pure (.constantMethodType (← read_data_as_method_type index))
  | .ConstantDynamic => do pure (.constantDynamic (← read_data_as_dynamic index))
  | .ConstantInvokeDynamic => do pure (.constantInvokeDynamic (← read_data_as_invoke_dynamic index))
  | .ConstantModule => do pure (.constantModule (← read_data_as_module index))
  | .ConstantPackage => do pure (.constantPackage (← read_data_as_package index))

/-- Mirror of `ConstantPoolInfo::new`: read one tag byte, dispatch to the
variant decoder. -/
def ConstantPoolInfo.new (index : Nat) : DecM ConstantPoolInfo := do
  let tagBytes ← readBytes 1
  let tag ← liftE (Tag.from_tag (tagBytes.headD 0))
  readEntryForTag index tag

/-- Mirror of `ConstantPoolContainer = BTreeMap<u16, ConstantPoolInfo>`,
kept as the association list of (index, entry) pairs in insertion order.
The decoder's loop inserts strictly increasing keys, for which a `BTreeMap`
insert is exactly an append. -/
abbrev ConstantPoolContainer : Type := List (Nat × ConstantPoolInfo)

/-- `BTreeMap::insert` at a fresh (strictly larger) key. -/
def cpInsert (pool : ConstantPoolContainer) (index : Nat) (info : ConstantPoolInfo) :
    ConstantPoolContainer := pool ++ [(index, info)]

/-- `BTreeMap::get(&index)`. -/
def cpGet (pool : ConstantPoolContainer) (index : Nat) : Option ConstantPoolInfo :=
  (pool.find? (fun p => p.1 == index)).map Prod.snd

/-- The `while index < constant_pool_count` loop of
`ClassFile::read_constant_pool`.  `fuel` structurally bounds the iteration
count; the loop advances `index` by at least 1 each step, so `fuel =
constant_pool_count` (the value passed by `read_constant_pool`) always
suffices and the `outOfFuel` branch is unreachable from the entry point. -/
def read_constant_pool_loop (constant_pool_count : Nat) :
    Nat → Nat → ConstantPoolContainer → DecM ConstantPoolContainer
  | 0, index, pool =>
      if index < constant_pool_count then fail .outOfFuel else pure pool
  | fuel + 1, index, pool =>
      if index < constant_pool_count then do
        let info ← ConstantPoolInfo.new index
        let offset : Nat :=
          match info.tag with
          | .ConstantLong | .ConstantDouble => 2
          | _ => 1
        read_constant_pool_loop constant_pool_count fuel (index + offset) (cpInsert pool index info)
      else pure pool

/-- Mirror of `ClassFile::read_constant_pool`: read the 16-bit count, then
run the loop with the iteration variable starting at 1. -/
def ClassFile.read_constant_pool : DecM ConstantPoolContainer := do
  let constant_pool_count := to_u16 (← readBytes 2)
  read_constant_pool_loop constant_pool_count constant_pool_count 1 []

/-! ## Error-propagation toolkit

`avoids x e` says the decode step `x` can never fail with the error `e`.
Panics are local to their sites, so tracking which constructor a function
can produce is a simple structural induction over binds. -/

/-- Running a bind: the continuation sees the state produced by the first
step. -/
theorem bind_apply {α β : Type} (x : DecM α) (f : α → DecM β) (r : ByteReader) :
    (x >>= f) r =
      match x r with
      | .ok (a, r1) => f a r1
      | .error e => .error e := by
  show StateT.bind x f r = _
  unfold StateT.bind
  cases x r with
  | error e => rfl
  | ok p => rfl

/-- Running a pure step. -/
theorem pure_apply {α : Type} (a : α) (r : ByteReader) :
    (pure a : DecM α) r = .ok (a, r) := rfl

/-- Running a bind whose first step is known to succeed. -/
theorem bind_apply_ok {α β : Type} {x : DecM α} {f : α → DecM β} {r r1 : ByteReader} {a : α}
    (hx : x r = .ok (a, r1)) : (x >>= f) r = f a r1 := by
  rw [bind_apply, hx]

/-- Running a bind of a pure step. -/
theorem pure_bind_apply {α β : Type} (a : α) (f : α → DecM β) (r : ByteReader) :
    (pure a >>= f) r = f a r := by
  rw [bind_apply, pure_apply]

/-- A successful raw read, at the `readBytes` level. -/
theorem readBytes_ok {r r1 : ByteReader} {n : Nat} {bs : List Nat}
    (h : r.read_n_bytes n = (r1, some bs)) : readBytes n r = .ok (bs, r1) := by
  unfold readBytes
  rw [h]

/-- Inversion of a successful `readBytes`: the data is untouched, the
position advanced by exactly `n`, the bytes are the `n`-byte slice at the
old position, and the read was in bounds. -/
theorem readBytes_ok_inv {r r1 : ByteReader} {n : Nat} {bs : List Nat}
    (h : readBytes n r = .ok (bs, r1)) :
    r1.data = r.data ∧ r1.position = r.position + n ∧
      bs = (r.data.drop r.position).take n ∧ r.position + n ≤ r.data.length := by
  rcases hrn : r.read_n_bytes n with ⟨r2, ob⟩
  unfold readBytes at h
  rw [hrn] at h
  cases ob with
  | none => exact Except.noConfusion h
  | some bs2 =>
      injection h with h2
      injection h2 with hb hr
      subst hb
      subst hr
      unfold ByteReader.read_n_bytes at hrn
      split at hrn
      · rename_i hle
        injection hrn with ha hb2
        injection hb2 with hbs
        subst ha
        exact ⟨rfl, rfl, hbs.symm, hle⟩
      · injection hrn with ha hb2
        exact Option.noConfusion hb2

/-- Splitting a successful bind into its two successful halves. -/
theorem bind_ok_inv {α β : Type} {x : DecM α} {f : α → DecM β} {r r2 : ByteReader} {b : β}
    (h : (x >>= f) r = .ok (b, r2)) :
    ∃ (a : α) (r1 : ByteReader), x r = .ok (a, r1) ∧ f a r1 = .ok (b, r2) := by
  rw [bind_apply] at h
  cases hx : x r with
  | error e =>
      rw [hx] at h
      exact Except.noConfusion h
  | ok p =>
      rw [hx] at h
      exact ⟨p.1, p.2, rfl, h⟩

/-- `avoids x e`: the step `x` never fails with the error `e`. -/
def avoids {α : Type} (x : DecM α) (e : JErr) : Prop := ∀ r, x r ≠ .error e

theorem avoids_pure {α : Type} (a : α) (e : JErr) : avoids (pure a : DecM α) e := by
  intro r h
  exact Except.noConfusion h

theorem avoids_fail {α : Type} {e' e : JErr} (h : e' ≠ e) : avoids (fail e' : DecM α) e := by
  intro r hc
  injection hc with h2
  exact h h2

theorem avoids_bind {α β : Type} {x : DecM α} {f : α → DecM β} {e : JErr}
    (hx : avoids x e) (hf : ∀ a, avoids (f a) e) : avoids (x >>= f) e := by
  intro r h
  rw [bind_apply] at h
  cases hr : x r with
  | error e2 =>
      rw [hr] at h
      injection h with h2
      subst h2
      exact hx r hr
  | ok p =>
      rw [hr] at h
      exact hf p.1 p.2 h

theorem avoids_liftE {α : Type} {x : Except JErr α} {e : JErr} (h : x ≠ .error e) :
    avoids (liftE x) e := by
  intro r hc
  unfold liftE at hc
  cases hx : x with
  | ok a => rw [hx] at hc; exact Except.noConfusion hc
  | error e2 =>
      rw [hx] at hc
      injection hc with h2
      subst h2
      exact h hx

theorem avoids_readBytes {n : Nat} {e : JErr} (h : e ≠ .eof) : avoids (readBytes n) e := by
  intro r hc
  unfold readBytes at hc
  cases hr : r.read_n_bytes n with
  | mk r1 o =>
      rw [hr] at hc
      cases o with
      | some bytes => exact Except.noConfusion hc
      | none =>
          injection hc with h2
          exact h h2.symm

/-- A successful `read_n_bytes n` returns exactly `n` bytes. -/
theorem read_n_bytes_length {r r1 : ByteReader} {n : Nat} {bs : List Nat}
    (h : r.read_n_bytes n = (r1, some bs)) : bs.length = n := by
  unfold ByteReader.read_n_bytes at h
  split at h
  · rename_i hle
    injection h with h1 h2
    injection h2 with h3
    subst h3
    simp [List.length_take, List.length_drop]
    omega
  · injection h with h1 h2
    exact Option.noConfusion h2

/-- A successful 1-byte read returns the singleton of its head. -/
theorem read_one_byte_shape {r r1 : ByteReader} {bs : List Nat}
    (h : r.read_n_bytes 1 = (r1, some bs)) : bs = [bs.headD 0] := by
  have hl := read_n_bytes_length h
  cases bs with
  | nil => simp at hl
  | cons a t =>
      cases t with
      | nil => rfl
      | cons b t2 => simp at hl

/-! ## C9: empty constant pool -/

/-- C9: with `constant_pool_count = 1` the decoder reads no pool entries and
returns the empty pool map, leaving the cursor immediately after the count;
the loop's iteration variable starts at 1 and the loop body only runs while
it is strictly below the count. -/
theorem c9_empty_constant_pool :
    (∀ (r r1 : ByteReader) (bs : List Nat),
        r.read_n_bytes 2 = (r1, some bs) → to_u16 bs = 1 →
        ClassFile.read_constant_pool r = .ok ([], r1)) ∧
    (∀ (count fuel index : Nat) (pool : ConstantPoolContainer) (r : ByteReader),
        ¬ index < count →
        read_constant_pool_loop count fuel index pool r = .ok (pool, r)) ∧
    (∀ (r r1 : ByteReader) (bs : List Nat),
        r.read_n_bytes 2 = (r1, some bs) →
        ClassFile.read_constant_pool r =
          read_constant_pool_loop (to_u16 bs) (to_u16 bs) 1 [] r1) := by
  have hloop : ∀ (count fuel index : Nat) (pool : ConstantPoolContainer) (r : ByteReader),
      ¬ index < count →
      read_constant_pool_loop count fuel index pool r = .ok (pool, r) := by
    intro count fuel index pool r h
    cases fuel with
    | zero =>
        unfold read_constant_pool_loop
        rw [if_neg h]
        rfl
    | succ fuel =>
        unfold read_constant_pool_loop
        rw [if_neg h]
        rfl
  have hentry : ∀ (r r1 : ByteReader) (bs : List Nat),
      r.read_n_bytes 2 = (r1, some bs) →
      ClassFile.read_constant_pool r =
        read_constant_pool_loop (to_u16 bs) (to_u16 bs) 1 [] r1 := by
    intro r r1 bs h
    unfold ClassFile.read_constant_pool
    rw [bind_apply]
    unfold readBytes
    rw [h]
  refine ⟨?_, hloop, hentry⟩
  intro r r1 bs h h1
  rw [hentry r r1 bs h, h1]
  exact hloop 1 1 1 [] r1 (by omega)

/-- Witness for C9: the concrete two-byte input `00 01`. -/
theorem c9_empty_constant_pool_witness :
    ClassFile.read_constant_pool ⟨[0, 1], 0⟩ = .ok ([], ⟨[0, 1], 2⟩) :=
  c9_empty_constant_pool.1 ⟨[0, 1], 0⟩ ⟨[0, 1], 2⟩ [0, 1] (by decide) (by decide)

/-! ## C6: malformed tags and method-handle kinds -/

/-- `Tag.from_tag` fails only with `malformedTag`. -/
theorem from_tag_error {t : Nat} {e : JErr} (h : Tag.from_tag t = .error e) :
    e = .malformedTag := by
  unfold Tag.from_tag at h
  split at h <;> simp_all

/-- `Tag.from_tag` yields the method-handle tag only on byte 15. -/
theorem from_tag_method_handle {t : Nat} (h : Tag.from_tag t = .ok .ConstantMethodHandle) :
    t = 15 := by
  unfold Tag.from_tag at h
  split at h <;> simp_all

/-- `MethodHandleType.from_kind` fails only with `malformedTag`. -/
theorem from_kind_error {k : Nat} {e : JErr} (h : MethodHandleType.from_kind k = .error e) :
    e = .malformedTag := by
  unfold MethodHandleType.from_kind at h
  split at h <;> simp_all

theorem read_data_as_utf8_avoids (i : Nat) {e : JErr} (h : e ≠ .eof) :
    avoids (read_data_as_utf8 i) e := by
  unfold read_data_as_utf8
  exact avoids_bind (avoids_readBytes h)
    (fun a => avoids_bind (avoids_readBytes h) (fun s => avoids_pure _ _))

theorem read_data_as_integer_avoids (i : Nat) {e : JErr} (h : e ≠ .eof) :
    avoids (read_data_as_integer i) e := by
  unfold read_data_as_integer
  exact avoids_bind (avoids_readBytes h) (fun a => avoids_pure _ _)

theorem read_data_as_float_avoids (i : Nat) {e : JErr} (h : e ≠ .eof) :
    avoids (read_data_as_float i) e := by
  unfold read_data_as_float
  exact avoids_bind (avoids_readBytes h) (fun a => avoids_pure _ _)

theorem read_data_as_long_avoids (i : Nat) {e : JErr} (h : e ≠ .eof) :
    avoids (read_data_as_long i) e := by
  unfold read_data_as_long
  exact avoids_bind (avoids_readBytes h) (fun a => avoids_pure _ _)

theorem read_data_as_double_avoids (i : Nat) {e : JErr} (h : e ≠ .eof) :
    avoids (read_data_as_double i) e := by
  unfold read_data_as_double
  exact avoids_bind (avoids_readBytes h) (fun a => avoids_pure _ _)

theorem read_data_as_class_avoids (i : Nat) {e : JErr} (h : e ≠ .eof) :
    avoids (read_data_as_class i) e := by
  unfold read_data_as_class
  exact avoids_bind (avoids_readBytes h) (fun a => avoids_pure _ _)

theorem read_data_as_string_avoids (i : Nat) {e : JErr} (h : e ≠ .eof) :
    avoids (read_data_as_string i) e := by
  unfold read_data_as_string
  exact avoids_bind (avoids_readBytes h) (fun a => avoids_pure _ _)

theorem read_data_as_field_ref_avoids (i : Nat) {e : JErr} (h : e ≠ .eof) :
    avoids (read_data_as_field_ref i) e := by
  unfold read_data_as_field_ref
  exact avoids_bind (avoids_readBytes h)
    (fun a => avoids_bind (avoids_readBytes h) (fun b => avoids_pure _ _))

theorem read_data_as_method_ref_avoids (i : Nat) {e : JErr} (h : e ≠ .eof) :
    avoids (read_data_as_method_ref i) e := by
  unfold read_data_as_method_ref
  exact avoids_bind (avoids_readBytes h)
    (fun a => avoids_bind (avoids_readBytes h) (fun b => avoids_pure _ _))

theorem read_data_as_interface_method_ref_avoids (i : Nat) {e : JErr} (h : e ≠ .eof) :
    avoids (read_data_as_interface_method_ref i) e := by
  unfold read_data_as_interface_method_ref
  exact avoids_bind (avoids_readBytes h)
    (fun a => avoids_bind (avoids_readBytes h) (fun b => avoids_pure _ _))

theorem read_data_as_name_and_type_avoids (i : Nat) {e : JErr} (h : e ≠ .eof) :
    avoids (read_data_as_name_and_type i) e := by
  unfold read_data_as_name_and_type
  exact avoids_bind (avoids_readBytes h)
    (fun a => avoids_bind (avoids_readBytes h) (fun b => avoids_pure _ _))

theorem read_data_as_method_handle_avoids (i : Nat) {e : JErr} (h1 : e ≠ .eof)
    (h2 : e ≠ .malformedTag) : avoids (read_data_as_method_handle i) e := by
  unfold read_data_as_method_handle
  refine avoids_bind (avoids_readBytes h1) (fun kb => ?_)
  refine avoids_bind (avoids_liftE (fun hx => h2 (from_kind_error hx))) (fun k => ?_)
  exact avoids_bind (avoids_readBytes h1) (fun b => avoids_pure _ _)

theorem read_data_as_method_type_avoids (i : Nat) {e : JErr} (h : e ≠ .eof) :
    avoids (read_data_as_method_type i) e := by
  unfold read_data_as_method_type
  exact avoids_bind (avoids_readBytes h) (fun a => avoids_pure _ _)

theorem read_data_as_dynamic_avoids (i : Nat) {e : JErr} (h : e ≠ .eof) :
    avoids (read_data_as_dynamic i) e := by
  unfold read_data_as_dynamic
  exact avoids_bind (avoids_readBytes h)
    (fun a => avoids_bind (avoids_readBytes h) (fun b => avoids_pure _ _))

theorem read_data_as_invoke_dynamic_avoids (i : Nat) {e : JErr} (h : e ≠ .eof) :
    avoids (read_data_as_invoke_dynamic i) e := by
  unfold read_data_as_invoke_dynamic
  exact avoids_bind (avoids_readBytes h)
    (fun a => avoids_bind (avoids_readBytes h) (fun b => avoids_pure _ _))

theorem read_data_as_module_avoids (i : Nat) {e : JErr} (h : e ≠ .eof) :
    avoids (read_data_as_module i) e := by
  unfold read_data_as_module
  exact avoids_bind (avoids_readBytes h) (fun a => avoids_pure _ _)

theorem read_data_as_package_avoids (i : Nat) {e : JErr} (h : e ≠ .eof) :
    avoids (read_data_as_package i) e := by
  unfold read_data_as_package
  exact avoids_bind (avoids_readBytes h) (fun a => avoids_pure _ _)

/-- `ConstantPoolInfo.new` can fail only with `eof` or `malformedTag`. -/
theorem constantPoolInfo_new_avoids (index : Nat) {e : JErr} (h1 : e ≠ .eof)
    (h2 : e ≠ .malformedTag) : avoids (ConstantPoolInfo.new index) e := by
  unfold ConstantPoolInfo.new
  refine avoids_bind (avoids_readBytes h1) (fun tb => ?_)
  refine avoids_bind (avoids_liftE (fun hx => h2 (from_tag_error hx))) (fun tag => ?_)
  cases tag <;> unfold readEntryForTag <;> refine avoids_bind ?_ (fun a => avoids_pure _ _)
  · exact read_data_as_utf8_avoids _ h1
  · exact read_data_as_integer_avoids _ h1
  · exact read_data_as_float_avoids _ h1
  · exact read_data_as_long_avoids _ h1
  · exact read_data_as_double_avoids _ h1
  · exact read_data_as_class_avoids _ h1
  · exact read_data_as_string_avoids _ h1
  · exact read_data_as_field_ref_avoids _ h1
  · exact read_data_as_method_ref_avoids _ h1
  · exact read_data_as_interface_method_ref_avoids _ h1
  · exact read_data_as_name_and_type_avoids _ h1
  · exact read_data_as_method_handle_avoids _ h1 h2
  · exact read_data_as_method_type_avoids _ h1
  · exact read_data_as_dynamic_avoids _ h1
  · exact read_data_as_invoke_dynamic_avoids _ h1
  · exact read_data_as_module_avoids _ h1
  · exact read_data_as_package_avoids _ h1

/-- A bad tag byte makes `ConstantPoolInfo.new` fail with `malformedTag`. -/
theorem new_malformed_of_bad_tag (index : Nat) (r r1 : ByteReader) (t : Nat)
    (h : r.read_n_bytes 1 = (r1, some [t])) (ht : Tag.from_tag t = .error .malformedTag) :
    ConstantPoolInfo.new index r = .error .malformedTag := by
  unfold ConstantPoolInfo.new
  rw [bind_apply]
  simp only [readBytes, h, List.headD]
  rw [bind_apply]
  simp only [liftE, ht]

/-- A method-handle entry whose kind byte is outside 1..9 makes
`ConstantPoolInfo.new` fail with `malformedTag`. -/
theorem new_malformed_of_bad_kind (index : Nat) (r r1 r2 : ByteReader) (k : Nat)
    (h : r.read_n_bytes 1 = (r1, some [15])) (h2 : r1.read_n_bytes 1 = (r2, some [k]))
    (hk : MethodHandleType.from_kind k = .error .malformedTag) :
    ConstantPoolInfo.new index r = .error .malformedTag := by
  unfold ConstantPoolInfo.new
  rw [bind_apply]
  simp only [readBytes, h, List.headD]
  rw [bind_apply]
  simp only [liftE, show Tag.from_tag 15 = .ok .ConstantMethodHandle from rfl]
  simp only [readEntryForTag]
  rw [bind_apply]
  unfold read_data_as_method_handle
  rw [bind_apply]
  simp only [readBytes, h2, List.headD]
  rw [bind_apply]
  simp only [liftE, hk]

/-- If `ConstantPoolInfo.new` fails with `malformedTag` then either the tag
byte read was invalid, or the tag was 15 (method handle) and the kind byte
read next was outside 1..9. -/
theorem new_malformed_inv (index : Nat) (r : ByteReader)
    (h : ConstantPoolInfo.new index r = .error .malformedTag) :
    ∃ (r1 : ByteReader) (t : Nat), r.read_n_bytes 1 = (r1, some [t]) ∧
      (Tag.from_tag t = .error .malformedTag ∨
        (t = 15 ∧ ∃ (r2 : ByteReader) (k : Nat), r1.read_n_bytes 1 = (r2, some [k]) ∧
          MethodHandleType.from_kind k = .error .malformedTag)) := by
  unfold ConstantPoolInfo.new at h
  rw [bind_apply] at h
  cases hr : r.read_n_bytes 1 with
  | mk r1 o =>
    cases o with
    | none =>
        simp only [readBytes, hr] at h
        exact absurd h (by decide)
    | some bs =>
        obtain ⟨t, rfl⟩ : ∃ t, bs = [t] := ⟨bs.headD 0, read_one_byte_shape hr⟩
        simp only [readBytes, hr] at h
        rw [bind_apply] at h
        cases htag : Tag.from_tag ([t].headD 0) with
        | error e =>
            refine ⟨r1, t, rfl, Or.inl ?_⟩
            exact from_tag_error htag ▸ htag
        | ok tag =>
            simp only [liftE, htag] at h
            cases tag <;> simp only [readEntryForTag] at h
            case ConstantUtf8 =>
              exact absurd h (avoids_bind (read_data_as_utf8_avoids _ (by decide))
                (fun a => avoids_pure _ _) r1)
            case ConstantInteger =>
              exact absurd h (avoids_bind (read_data_as_integer_avoids _ (by decide))
                (fun a => avoids_pure _ _) r1)
            case ConstantFloat =>
              exact absurd h (avoids_bind (read_data_as_float_avoids _ (by decide))
                (fun a => avoids_pure _ _) r1)
            case ConstantLong =>
              exact absurd h (avoids_bind (read_data_as_long_avoids _ (by decide))
                (fun a => avoids_pure _ _) r1)
            case ConstantDouble =>
              exact absurd h (avoids_bind (read_data_as_double_avoids _ (by decide))
                (fun a => avoids_pure _ _) r1)
            case ConstantClass =>
              exact absurd h (avoids_bind (read_data_as_class_avoids _ (by decide))
                (fun a => avoids_pure _ _) r1)
            case ConstantString =>
              exact absurd h (avoids_bind (read_data_as_string_avoids _ (by decide))
                (fun a => avoids_pure _ _) r1)
            case ConstantFieldRef =>
              exact absurd h (avoids_bind (read_data_as_field_ref_avoids _ (by decide))
                (fun a => avoids_pure _ _) r1)
            case ConstantMethodRef =>
              exact absurd h (avoids_bind (read_data_as_method_ref_avoids _ (by decide))
                (fun a => avoids_pure _ _) r1)
            case ConstantInterfaceMethodRef =>
              exact absurd h (avoids_bind (read_data_as_interface_method_ref_avoids _ (by decide))
                (fun a => avoids_pure _ _) r1)
            case ConstantNameAndType =>
              exact absurd h (avoids_bind (read_data_as_name_and_type_avoids _ (by decide))
                (fun a => avoids_pure _ _) r1)
            case ConstantMethodType =>
              exact absurd h (avoids_bind (read_data_as_method_type_avoids _ (by decide))
                (fun a => avoids_pure _ _) r1)
            case ConstantDynamic =>
              exact absurd h (avoids_bind (read_data_as_dynamic_avoids _ (by decide))
                (fun a => avoids_pure _ _) r1)
            case ConstantInvokeDynamic =>
              exact absurd h (avoids_bind (read_data_as_invoke_dynamic_avoids _ (by decide))
                (fun a => avoids_pure _ _) r1)
            case ConstantModule =>
              exact absurd h (avoids_bind (read_data_as_module_avoids _ (by decide))
                (fun a => avoids_pure _ _) r1)
            case ConstantPackage =>
              exact absurd h (avoids_bind (read_data_as_package_avoids _ (by decide))
                (fun a => avoids_pure _ _) r1)
            case ConstantMethodHandle =>
              rw [bind_apply] at h
              cases hmh : read_data_as_method_handle index r1 with
              | ok p =>
                  rw [hmh] at h
                  exact absurd h (avoids_pure _ _ p.2)
              | error e2 =>
                  rw [hmh] at h
                  injection h with he
                  subst he
                  unfold read_data_as_method_handle at hmh
                  rw [bind_apply] at hmh
                  cases hr2 : r1.read_n_bytes 1 with
                  | mk r2 o2 =>
                    cases o2 with
                    | none =>
                        simp only [readBytes, hr2] at hmh
                        exact absurd hmh (by decide)
                    | some ks =>
                        obtain ⟨k, rfl⟩ : ∃ k, ks = [k] := ⟨ks.headD 0, read_one_byte_shape hr2⟩
                        simp only [readBytes, hr2] at hmh
                        rw [bind_apply] at hmh
                        cases hk : MethodHandleType.from_kind ([k].headD 0) with
                        | error e3 =>
                            refine ⟨r1, t, rfl, Or.inr ?_⟩
                            refine ⟨from_tag_method_handle htag, r2, k, hr2, ?_⟩
                            exact from_kind_error hk ▸ hk
                        | ok kk =>
                            simp only [liftE, hk] at hmh
                            exact absurd hmh
                              (avoids_bind (avoids_readBytes (by decide))
                                (fun b => avoids_pure _ _) r2)

/-- C6: the constant-pool entry decoder fails with `malformedTag` exactly on
an unrecognized tag byte (the codes 1,3,4,5,6,7,8,9,10,11,12,15,16,17,18,
19,20 are the recognized ones) or on a method-handle reference kind outside
1..9; kinds 1..9 map to the named reference-kind variants. -/
theorem c6_malformed_tag_errors :
    (∀ t : Nat, t < 256 →
        ((Tag.from_tag t = .error .malformedTag) ↔
          ¬ t ∈ ([1, 3, 4, 5, 6, 7, 8, 9, 10, 11, 12, 15, 16, 17, 18, 19, 20] : List Nat))) ∧
    (∀ k : Nat, k < 256 →
        ((MethodHandleType.from_kind k = .error .malformedTag) ↔ ¬ (1 ≤ k ∧ k ≤ 9))) ∧
    (MethodHandleType.from_kind 1 = .ok .RefGetField ∧
      MethodHandleType.from_kind 2 = .ok .RefGetStatic ∧
      MethodHandleType.from_kind 3 = .ok .RefPutField ∧
      MethodHandleType.from_kind 4 = .ok .RefPutStatic ∧
      MethodHandleType.from_kind 5 = .ok .RefInvokeVirtual ∧
      MethodHandleType.from_kind 6 = .ok .RefInvokeStatic ∧
      MethodHandleType.from_kind 7 = .ok .RefInvokeSpecial ∧
      MethodHandleType.from_kind 8 = .ok .RefNewInvokeSpecial ∧
      MethodHandleType.from_kind 9 = .ok .RefInvokeInterface) ∧
    (∀ (index : Nat) (r r1 : ByteReader) (t : Nat),
        r.read_n_bytes 1 = (r1, some [t]) → Tag.from_tag t = .error .malformedTag →
        ConstantPoolInfo.new index r = .error .malformedTag) ∧
    (∀ (index : Nat) (r r1 r2 : ByteReader) (k : Nat),
        r.read_n_bytes 1 = (r1, some [15]) → r1.read_n_bytes 1 = (r2, some [k]) →
        MethodHandleType.from_kind k = .error .malformedTag →
        ConstantPoolInfo.new index r = .error .malformedTag) ∧
    (∀ (index : Nat) (r : ByteReader),
        ConstantPoolInfo.new index r = .error .malformedTag →
        ∃ (r1 : ByteReader) (t : Nat), r.read_n_bytes 1 = (r1, some [t]) ∧
          (Tag.from_tag t = .error .malformedTag ∨
            (t = 15 ∧ ∃ (r2 : ByteReader) (k : Nat), r1.read_n_bytes 1 = (r2, some [k]) ∧
              MethodHandleType.from_kind k = .error .malformedTag))) :=
  ⟨by decide, by decide, by decide,
   new_malformed_of_bad_tag, new_malformed_of_bad_kind, new_malformed_inv⟩

/-! ## Attributes (attribute.rs)

The attribute decoder dispatches on the UTF-8 name resolved through the
constant pool.  The name constants below are the ASCII byte lists of the
JVM attribute names (`ConstantUtf8Info.string` keeps raw bytes, see
there). -/

/-- ASCII bytes of the attribute name "ConstantValue". -/
def nameConstantValue : List Nat := [67, 111, 110, 115, 116, 97, 110, 116, 86, 97, 108, 117, 101]

/-- ASCII bytes of the attribute name "Code". -/
def nameCode : List Nat := [67, 111, 100, 101]

/-- ASCII bytes of the attribute name "StackMapTable". -/
def nameStackMapTable : List Nat := [83, 116, 97, 99, 107, 77, 97, 112, 84, 97, 98, 108, 101]

/-- ASCII bytes of the attribute name "Exceptions". -/
def nameExceptions : List Nat := [69, 120, 99, 101, 112, 116, 105, 111, 110, 115]

/-- ASCII bytes of the attribute name "InnerClasses". -/
def nameInnerClasses : List Nat := [73, 110, 110, 101, 114, 67, 108, 97, 115, 115, 101, 115]

/-- ASCII bytes of the attribute name "EnclosingMethod". -/
def nameEnclosingMethod : List Nat :=
  [69, 110, 99, 108, 111, 115, 105, 110, 103, 77, 101, 116, 104, 111, 100]

/-- ASCII bytes of the attribute name "Synthetic". -/
def nameSynthetic : List Nat := [83, 121, 110, 116, 104, 101, 116, 105, 99]

/-- ASCII bytes of the attribute name "Signature". -/
def nameSignature : List Nat := [83, 105, 103, 110, 97, 116, 117, 114, 101]

/-- ASCII bytes of the attribute name "SourceFile". -/
def nameSourceFile : List Nat := [83, 111, 117, 114, 99, 101, 70, 105, 108, 101]

/-- ASCII bytes of the attribute name "SourceDebugExtension". -/
def nameSourceDebugExtension : List Nat :=
  [83, 111, 117, 114, 99, 101, 68, 101, 98, 117, 103, 69, 120, 116, 101, 110, 115, 105, 111, 110]

/-- ASCII bytes of the attribute name "LineNumberTable". -/
def nameLineNumberTable : List Nat :=
  [76, 105, 110, 101, 78, 117, 109, 98, 101, 114, 84, 97, 98, 108, 101]

/-- ASCII bytes of the attribute name "LocalVariableTable". -/
def nameLocalVariableTable : List Nat :=
  [76, 111, 99, 97, 108, 86, 97, 114, 105, 97, 98, 108, 101, 84, 97, 98, 108, 101]

/-- ASCII bytes of the attribute name "LocalVariableTypeTable". -/
def nameLocalVariableTypeTable : List Nat :=
  [76, 111, 99, 97, 108, 86, 97, 114, 105, 97, 98, 108, 101, 84, 121, 112, 101, 84, 97, 98,
   108, 101]

/-- ASCII bytes of the attribute name "Deprecated". -/
def nameDeprecated : List Nat := [68, 101, 112, 114, 101, 99, 97, 116, 101, 100]

/-- ASCII bytes of the attribute name "RuntimeVisibleAnnotations". -/
def nameRuntimeVisibleAnnotations : List Nat :=
  [82, 117, 110, 116, 105, 109, 101, 86, 105, 115, 105, 98, 108, 101, 65, 110, 110, 111, 116,
   97, 116, 105, 111, 110, 115]

/-- ASCII bytes of the attribute name "RuntimeInvisibleAnnotations". -/
def nameRuntimeInvisibleAnnotations : List Nat :=
  [82, 117, 110, 116, 105, 109, 101, 73, 110, 118, 105, 115, 105, 98, 108, 101, 65, 110, 110,
   111, 116, 97, 116, 105, 111, 110, 115]

/-- ASCII bytes of the attribute name "RuntimeVisibleParameterAnnotations". -/
def nameRuntimeVisibleParameterAnnotations : List Nat :=
  [82, 117, 110, 116, 105, 109, 101, 86, 105, 115, 105, 98, 108, 101, 80, 97, 114, 97, 109,
   101, 116, 101, 114, 65, 110, 110, 111, 116, 97, 116, 105, 111, 110, 115]

/-- ASCII bytes of the attribute name "RuntimeInvisibleParameterAnnotations". -/
def nameRuntimeInvisibleParameterAnnotations : List Nat :=
  [82, 117, 110, 116, 105, 109, 101, 73, 110, 118, 105, 115, 105, 98, 108, 101, 80, 97, 114,
   97, 109, 101, 116, 101, 114, 65, 110, 110, 111, 116, 97, 116, 105, 111, 110, 115]

/-- ASCII bytes of the attribute name "RuntimeVisibleTypeAnnotations". -/
def nameRuntimeVisibleTypeAnnotations : List Nat :=
  [82, 117, 110, 116, 105, 109, 101, 86, 105, 115, 105, 98, 108, 101, 84, 121, 112, 101, 65,
   110, 110, 111, 116, 97, 116, 105, 111, 110, 115]

/-- ASCII bytes of the attribute name "RuntimeInvisibleTypeAnnotations". -/
def nameRuntimeInvisibleTypeAnnotations : List Nat :=
  [82, 117, 110, 116, 105, 109, 101, 73, 110, 118, 105, 115, 105, 98, 108, 101, 84, 121, 112,
   101, 65, 110, 110, 111, 116, 97, 116, 105, 111, 110, 115]

/-- ASCII bytes of the attribute name "AnnotationDefault". -/
def nameAnnotationDefault : List Nat :=
  [65, 110, 110, 111, 116, 97, 116, 105, 111, 110, 68, 101, 102, 97, 117, 108, 116]

/-- ASCII bytes of the attribute name "BootstrapMethods". -/
def nameBootstrapMethods : List Nat :=
  [66, 111, 111, 116, 115, 116, 114, 97, 112, 77, 101, 116, 104, 111, 100, 115]

/-- ASCII bytes of the attribute name "MethodParameters". -/
def nameMethodParameters : List Nat :=
  [77, 101, 116, 104, 111, 100, 80, 97, 114, 97, 109, 101, 116, 101, 114, 115]

/-- ASCII bytes of the attribute name "Module". -/
def nameModule : List Nat := [77, 111, 100, 117, 108, 101]

/-- ASCII bytes of the attribute name "ModulePackages". -/
def nameModulePackages : List Nat :=
  [77, 111, 100, 117, 108, 101, 80, 97, 99, 107, 97, 103, 101, 115]

/-- ASCII bytes of the attribute name "ModuleMainClass". -/
def nameModuleMainClass : List Nat :=
  [77, 111, 100, 117, 108, 101, 77, 97, 105, 110, 67, 108, 97, 115, 115]

/-- ASCII bytes of the attribute name "NestHost". -/
def nameNestHost : List Nat := [78, 101, 115, 116, 72, 111, 115, 116]

/-- ASCII bytes of the attribute name "NestMembers". -/
def nameNestMembers : List Nat := [78, 101, 115, 116, 77, 101, 109, 98, 101, 114, 115]

/-- ASCII bytes of the attribute name "Record". -/
def nameRecord : List Nat := [82, 101, 99, 111, 114, 100]

/-- ASCII bytes of the attribute name "PermittedSubclasses". -/
def namePermittedSubclasses : List Nat :=
  [80, 101, 114, 109, 105, 116, 116, 101, 100, 83, 117, 98, 99, 108, 97, 115, 115, 101, 115]

/-- Mirror of `ExceptionTableEntry` (inside a Code attribute). -/
structure ExceptionTableEntry where
  start_pc : Nat
  end_pc : Nat
  handler_pc : Nat
  catch_type : Nat
deriving Repr, DecidableEq

/-- Mirror of `LineNumberTableEntry`. -/
structure LineNumberTableEntry where
  start_pc : Nat
  line_number : Nat
deriving Repr, DecidableEq

/-- Mirror of `InnerClassEntry`. -/
structure InnerClassEntry where
  inner_class_info_index : Nat
  outer_class_info_index : Nat
  inner_name_index : Nat
  inner_class_access_flags : List NestedClassAccessFlags
deriving Repr, DecidableEq

/-- Mirror of `BootstrapMethodEntry`. -/
structure BootstrapMethodEntry where
  bootstrap_method_ref : Nat
  bootstrap_arguments : List Nat
deriving Repr, DecidableEq

/-- Mirror of `AttributeInfo` and its `Attribute*` payload structs.  The
source pairs an `AttributeType` with a boxed payload; since the type always
agrees with the payload, the embedding folds them into one constructor per
*implemented* variant, carrying the payload struct's fields.  The variants
whose readers are `todo!()` in the source (StackMapTable,
LocalVariableTable, LocalVariableTypeTable, the annotation families,
AnnotationDefault, MethodParameters, Module, ModulePackages,
ModuleMainClass, NestHost, NestMembers, Record, PermittedSubclasses) can
never be constructed — their readers panic before building a value — so
they have no constructors here; their dispatch arms fail with `todoAttr`. -/
inductive AttributeInfo where
  | constantValue (attribute_name_index attribute_length constantvalue_index : Nat)
  | code (attribute_name_index attribute_length max_stack max_locals : Nat)
      (code : List Nat) (exception_table : List ExceptionTableEntry)
      (attributes : List AttributeInfo)
  | exceptions (attribute_name_index attribute_length number_of_exceptions : Nat)
      (exception_index_table : List Nat)
  | innerClasses (attribute_name_index attribute_length : Nat)
      (classes : List InnerClassEntry)
  | enclosingMethod (attribute_name_index attribute_length class_index method_index : Nat)
  | synthetic (attribute_name_index attribute_length : Nat)
  | signature (attribute_name_index attribute_length signature_index : Nat)
  | sourceFile (attribute_name_index attribute_length sourcefile_index : Nat)
  | sourceDebugExtension (attribute_name_index attribute_length : Nat)
      (debug_extension : List Nat)
  | lineNumberTable (attribute_name_index attribute_length : Nat)
      (line_number_table : List LineNumberTableEntry)
  | deprecated (attribute_name_index attribute_length : Nat)
  | bootstrapMethods (attribute_name_index attribute_length : Nat)
      (bootstrap_methods : List BootstrapMethodEntry)
deriving Repr

/-- A run of `to_u16` reads, used by the list-shaped attribute payloads
(`exception_index_table`, `bootstrap_arguments`, ...). -/
def readU16List : Nat → DecM (List Nat)
  | 0 => pure []
  | n + 1 => do
      let v := to_u16 (← readBytes 2)
      let rest ← readU16List n
      pure (v :: rest)

/-- The exception-table loop of `AttributeInfo::read_data_as_code`. -/
def read_exception_table : Nat → DecM (List ExceptionTableEntry)
  | 0 => pure []
  | n + 1 => do
      let start_pc := to_u16 (← readBytes 2)
      let end_pc := to_u16 (← readBytes 2)
      let handler_pc := to_u16 (← readBytes 2)
      let catch_type := to_u16 (← readBytes 2)
      let rest ← read_exception_table n
      pure (⟨start_pc, end_pc, handler_pc, catch_type⟩ :: rest)

/-- The entry loop of `AttributeInfo::read_data_as_line_number_table`. -/
def read_line_number_entries : Nat → DecM (List LineNumberTableEntry)
  | 0 => pure []
  | n + 1 => do
      let start_pc := to_u16 (← readBytes 2)
      let line_number := to_u16 (← readBytes 2)
      let rest ← read_line_number_entries n
      pure (⟨start_pc, line_number⟩ :: rest)

/-- The entry loop of `AttributeInfo::read_data_as_inner_classes`. -/
def read_inner_class_entries : Nat → DecM (List InnerClassEntry)
  | 0 => pure []
  | n + 1 => do
      let inner_class_info_index := to_u16 (← readBytes 2)
      let outer_class_info_index := to_u16 (← readBytes 2)
      let inner_name_index := to_u16 (← readBytes 2)
      let inner_class_access_flags ←
        liftE (NestedClassAccessFlags.from_u16 (to_u16 (← readBytes 2)))
      let rest ← read_inner_class_entries n
      pure (⟨inner_class_info_index, outer_class_info_index, inner_name_index,
        inner_class_access_flags⟩ :: rest)

/-- The entry loop of `AttributeInfo::read_data_as_bootstrap_methods`. -/
def read_bootstrap_entries : Nat → DecM (List BootstrapMethodEntry)
  | 0 => pure []
  | n + 1 => do
      let bootstrap_method_ref := to_u16 (← readBytes 2)
      let num_bootstrap_arguments := to_u16 (← readBytes 2)
      let bootstrap_arguments ← readU16List num_bootstrap_arguments
      let rest ← read_bootstrap_entries n
      pure (⟨bootstrap_method_ref, bootstrap_arguments⟩ :: rest)

/-- Mirror of `AttributeInfo::read_data_as_constant_value`: the source first
runs `assert_eq!(attribute_length, 2, ...)` (the spec's LengthMismatch) and
then reads the two-byte `constantvalue_index`. -/
def read_data_as_constant_value (attribute_name_index attribute_length : Nat) :
    DecM AttributeInfo :=
  if attribute_length = 2 then do
    let constantvalue_index := to_u16 (← readBytes 2)
    pure (.constantValue attribute_name_index attribute_length constantvalue_index)
  else fail .lengthMismatch

/-- Mirror of `AttributeInfo::read_data_as_exceptions`. -/
def read_data_as_exceptions (attribute_name_index attribute_length : Nat) :
    DecM AttributeInfo := do
  let number_of_exceptions := to_u16 (← readBytes 2)
  let exception_index_table ← readU16List number_of_exceptions
  pure (.exceptions attribute_name_index attribute_length number_of_exceptions
    exception_index_table)

/-- Mirror of `AttributeInfo::read_data_as_inner_classes`. -/
def read_data_as_inner_classes (attribute_name_index attribute_length : Nat) :
    DecM AttributeInfo := do
  let number_of_classes := to_u16 (← readBytes 2)
  let classes ← read_inner_class_entries number_of_classes
  pure (.innerClasses attribute_name_index attribute_length classes)

/-- Mirror of `AttributeInfo::read_data_as_enclosing_method`. -/
def read_data_as_enclosing_method (attribute_name_index attribute_length : Nat) :
    DecM AttributeInfo := do
  let class_index := to_u16 (← readBytes 2)
  let method_index := to_u16 (← readBytes 2)
  pure (.enclosingMethod attribute_name_index attribute_length class_index method_index)

/-- Mirror of `AttributeInfo::read_data_as_synthetic` (empty payload). -/
def read_data_as_synthetic (attribute_name_index attribute_length : Nat) :
    DecM AttributeInfo :=
  pure (.synthetic attribute_name_index attribute_length)

/-- Mirror of `AttributeInfo::read_data_as_signature`. -/
def read_data_as_signature (attribute_name_index attribute_length : Nat) :
    DecM AttributeInfo := do
  let signature_index := to_u16 (← readBytes 2)
  pure (.signature attribute_name_index attribute_length signature_index)

/-- Mirror of `AttributeInfo::read_data_as_source_file`. -/
def read_data_as_source_file (attribute_name_index attribute_length : Nat) :
    DecM AttributeInfo := do
  let sourcefile_index := to_u16 (← readBytes 2)
  pure (.sourceFile attribute_name_index attribute_length sourcefile_index)

/-- Mirror of `AttributeInfo::read_data_as_source_debug_extension`. -/
def read_data_as_source_debug_extension (attribute_name_index attribute_length : Nat) :
    DecM AttributeInfo := do
  let debug_extension ← readBytes attribute_length
  pure (.sourceDebugExtension attribute_name_index attribute_length debug_extension)

/-- Mirror of `AttributeInfo::read_data_as_line_number_table`. -/
def read_data_as_line_number_table (attribute_name_index attribute_length : Nat) :
    DecM AttributeInfo := do
  let line_number_table_length := to_u16 (← readBytes 2)
  let line_number_table ← read_line_number_entries line_number_table_length
  pure (.lineNumberTable attribute_name_index attribute_length line_number_table)

/-- Mirror of `AttributeInfo::read_data_as_deprecated` (empty payload). -/
def read_data_as_deprecated (attribute_name_index attribute_length : Nat) :
    DecM AttributeInfo :=
  pure (.deprecated attribute_name_index attribute_length)

/-- Mirror of `AttributeInfo::read_data_as_bootstrap_methods`. -/
def read_data_as_bootstrap_methods (attribute_name_index attribute_length : Nat) :
    DecM AttributeInfo := do
  let num_bootstrap_methods := to_u16 (← readBytes 2)
  let bootstrap_methods ← read_bootstrap_entries num_bootstrap_methods
  pure (.bootstrapMethods attribute_name_index attribute_length bootstrap_methods)

mutual

/-- Mirror of `AttributeInfo::new`: read the 6-byte header
(`attribute_name_index`, `attribute_length`), resolve the name through the
pool as UTF-8 (absent or wrong-variant entries are `expect` panics, the
spec's BadPoolRef), then dispatch by exact string match over the JVM
attribute-name table.  Recognized names whose readers are `todo!()` fail
with `todoAttr`; unknown names panic (`unknownAttribute`).  The `fuel`
argument structurally bounds the Code-attribute recursion; each recursive
step consumes at least one unit, and the top-level callers pass a fuel no
smaller than the input length, so `outOfFuel` is unreachable on real
runs. -/
def AttributeInfo.new : Nat → ConstantPoolContainer → DecM AttributeInfo
  | 0, _ => fail .outOfFuel
  | fuel + 1, pool => do
      let attribute_name_index := to_u16 (← readBytes 2)
      let attribute_length := to_u32 (← readBytes 4)
      match cpGet pool attribute_name_index with
      | none => fail .badPoolRef
      | some entry =>
        match entry.try_cast_into_utf8 with
        | none => fail .badPoolRef
        | some u =>
          let name := u.string
          if name = nameConstantValue then
            read_data_as_constant_value attribute_name_index attribute_length
          else if name = nameCode then
            read_data_as_code fuel pool attribute_name_index attribute_length
          else if name = nameStackMapTable then fail .todoAttr
          else if name = nameExceptions then
            read_data_as_exceptions attribute_name_index attribute_length
          else if name = nameInnerClasses then
            read_data_as_inner_classes attribute_name_index attribute_length
          else if name = nameEnclosingMethod then
            read_data_as_enclosing_method attribute_name_index attribute_length
          else if name = nameSynthetic then
            read_data_as_synthetic attribute_name_index attribute_length
          else if name = nameSignature then
            read_data_as_signature attribute_name_index attribute_length
          else if name = nameSourceFile then
            read_data_as_source_file attribute_name_index attribute_length
          else if name = nameSourceDebugExtension then
            read_data_as_source_debug_extension attribute_name_index attribute_length
          else if name = nameLineNumberTable then
            read_data_as_line_number_table attribute_name_index attribute_length
          else if name = nameLocalVariableTable then fail .todoAttr
          else if name = nameLocalVariableTypeTable then fail .todoAttr
          else if name = nameDeprecated then
            read_data_as_deprecated attribute_name_index attribute_length
          else if name = nameRuntimeVisibleAnnotations then fail .todoAttr
          else if name = nameRuntimeInvisibleAnnotations then fail .todoAttr
          else if name = nameRuntimeVisibleParameterAnnotations then fail .todoAttr
          else if name = nameRuntimeInvisibleParameterAnnotations then fail .todoAttr
          else if name = nameRuntimeVisibleTypeAnnotations then fail .todoAttr
          else if name = nameRuntimeInvisibleTypeAnnotations then fail .todoAttr
          else if name = nameAnnotationDefault then fail .todoAttr
          else if name = nameBootstrapMethods then
            read_data_as_bootstrap_methods attribute_name_index attribute_length
          else if name = nameMethodParameters then fail .todoAttr
          else if name = nameModule then fail .todoAttr
          else if name = nameModulePackages then fail .todoAttr
          else if name = nameModuleMainClass then fail .todoAttr
          else if name = nameNestHost then fail .todoAttr
          else if name = nameNestMembers then fail .todoAttr
          else if name = nameRecord then fail .todoAttr
          else if name = namePermittedSubclasses then fail .todoAttr
          else fail .unknownAttribute

/-- Mirror of `AttributeInfo::read_data_as_code`: max_stack (u16),
max_locals (u16), code_length (u32), `code_length` code bytes,
exception_table_length (u16), that many 4×u16 exception-table entries,
attributes_count (u16), then that many nested attributes recursively. -/
def read_data_as_code : Nat → ConstantPoolContainer → Nat → Nat → DecM AttributeInfo
  | 0, _, _, _ => fail .outOfFuel
  | fuel + 1, pool, attribute_name_index, attribute_length => do
      let max_stack := to_u16 (← readBytes 2)
      let max_locals := to_u16 (← readBytes 2)
      let code_length := to_u32 (← readBytes 4)
      let code ← readBytes code_length
      let exception_table_length := to_u16 (← readBytes 2)
      let exception_table ← read_exception_table exception_table_length
      let attributes_count := to_u16 (← readBytes 2)
      let attributes ← read_attributes_list fuel pool attributes_count
      pure (.code attribute_name_index attribute_length max_stack max_locals code
        exception_table attributes)

/-- The `for _ in 0..attributes_count { AttributeInfo::new(...) }` loops of
`read_data_as_code`, `FieldInfo`, `MethodInfo` and the class assembler. -/
def read_attributes_list : Nat → ConstantPoolContainer → Nat → DecM (List AttributeInfo)
  | _, _, 0 => pure []
  | 0, _, _ + 1 => fail .outOfFuel
  | fuel + 1, pool, n + 1 => do
      let a ← AttributeInfo.new fuel pool
      let rest ← read_attributes_list fuel pool n
      pure (a :: rest)

end

/-- The exception-table loop on count 0 reads nothing. -/
theorem read_exception_table_zero : read_exception_table 0 = pure [] := rfl

/-- One step of the exception-table loop: four u16 reads, then the rest. -/
theorem read_exception_table_succ (n : Nat) :
    read_exception_table (n + 1) =
      readBytes 2 >>= (fun b1 => readBytes 2 >>= (fun b2 => readBytes 2 >>= (fun b3 =>
        readBytes 2 >>= (fun b4 => read_exception_table n >>= (fun rest =>
          pure (⟨to_u16 b1, to_u16 b2, to_u16 b3, to_u16 b4⟩ :: rest)))))) := rfl

/-- The attribute-list loop on count 0 reads nothing, whatever the fuel. -/
theorem read_attributes_list_zero (fuel : Nat) (pool : ConstantPoolContainer) :
    read_attributes_list fuel pool 0 = pure [] := by
  cases fuel <;> rfl

/-- One step of the attribute-list loop. -/
theorem read_attributes_list_succ (fuel n : Nat) (pool : ConstantPoolContainer) :
    read_attributes_list (fuel + 1) pool (n + 1) =
      AttributeInfo.new fuel pool >>= (fun a =>
        read_attributes_list fuel pool n >>= (fun rest => pure (a :: rest))) := rfl

/-! ## C1: Long/Double double-slot invariant -/

/-- The number of pool slots an entry occupies: the decoder's
`match info.tag { Long | Double => 2, _ => 1 }` offset. -/
def slotWidth (info : ConstantPoolInfo) : Nat :=
  match info.tag with
  | .ConstantLong | .ConstantDouble => 2
  | _ => 1

/-- The relation between consecutive entries appended by the pool loop: the
later entry's index is the earlier entry's index plus its slot width. -/
def chainRel (a b : Nat × ConstantPoolInfo) : Prop := b.1 = a.1 + slotWidth a.2

/-- Loop invariant: starting from a chained pool whose last entry determines
the current index, the loop only ever produces chained pools. -/
theorem read_constant_pool_loop_chain (count : Nat) (fuel : Nat) :
    ∀ (index : Nat) (pool result : ConstantPoolContainer) (r r' : ByteReader),
      List.Chain' chainRel pool →
      (∀ p ∈ pool.getLast?, index = p.1 + slotWidth p.2) →
      read_constant_pool_loop count fuel index pool r = .ok (result, r') →
      List.Chain' chainRel result := by
  induction fuel with
  | zero =>
      intro index pool result r r' hc hl h
      unfold read_constant_pool_loop at h
      split at h
      · exact Except.noConfusion h
      · injection h with h2
        injection h2 with h3 h4
        rw [← h3]
        exact hc
  | succ fuel ih =>
      intro index pool result r r' hc hl h
      unfold read_constant_pool_loop at h
      split at h
      · rw [bind_apply] at h
        cases hn : ConstantPoolInfo.new index r with
        | error e =>
            rw [hn] at h
            exact Except.noConfusion h
        | ok p =>
            obtain ⟨info, r1⟩ := p
            rw [hn] at h
            have hc' : List.Chain' chainRel (cpInsert pool index info) := by
              unfold cpInsert
              refine List.chain'_append.mpr ⟨hc, List.chain'_singleton _, ?_⟩
              intro x hx y hy
              have hy2 : (index, info) = y := by simpa using hy
              subst hy2
              exact hl x hx
            have hl' : ∀ p ∈ (cpInsert pool index info).getLast?,
                index + slotWidth info = p.1 + slotWidth p.2 := by
              unfold cpInsert
              rw [List.getLast?_concat]
              intro p hp
              have hp2 : (index, info) = p := by simpa using hp
              subst hp2
              rfl
            exact ih (index + slotWidth info) (cpInsert pool index info) result r1 r' hc' hl' h
      · injection h with h2
        injection h2 with h3 h4
        rw [← h3]
        exact hc

/-- Every pool produced by `ClassFile.read_constant_pool` is chained: each
entry's index is its predecessor's index plus the predecessor's slot
width. -/
theorem read_constant_pool_chain (r r' : ByteReader) (pool : ConstantPoolContainer)
    (h : ClassFile.read_constant_pool r = .ok (pool, r')) : List.Chain' chainRel pool := by
  unfold ClassFile.read_constant_pool at h
  rw [bind_apply] at h
  cases hb : readBytes 2 r with
  | error e =>
      rw [hb] at h
      exact Except.noConfusion h
  | ok p =>
      obtain ⟨bs, r1⟩ := p
      rw [hb] at h
      exact read_constant_pool_loop_chain (to_u16 bs) (to_u16 bs) 1 [] pool r1 r'
        (by exact List.chain'_nil) (by intro p hp; simp at hp) h

/-- Every entry occupies at least one slot. -/
theorem slotWidth_pos (info : ConstantPoolInfo) : 1 ≤ slotWidth info := by
  unfold slotWidth
  split <;> omega

/-- A Long or Double entry occupies exactly two slots. -/
theorem slotWidth_long_double {e : ConstantPoolInfo}
    (h : e.tag = .ConstantLong ∨ e.tag = .ConstantDouble) : slotWidth e = 2 := by
  unfold slotWidth
  rcases h with h | h <;> rw [h]

/-- C1: in every decoded constant pool, a Long or Double stored at index `k`
reserves index `k+1`: looking up `k+1` returns absent, no entry with key
`k+1` is in the pool, and the entry read immediately after the Long/Double
(when one exists) is stored at index `k+2`. -/
theorem c1_long_double_reserved_slot :
    ∀ (r r' : ByteReader) (pool : ConstantPoolContainer),
      ClassFile.read_constant_pool r = .ok (pool, r') →
      ∀ (k : Nat) (e : ConstantPoolInfo), cpGet pool k = some e →
        (e.tag = .ConstantLong ∨ e.tag = .ConstantDouble) →
        cpGet pool (k + 1) = none ∧
        (∀ e' : ConstantPoolInfo, (k + 1, e') ∉ pool) ∧
        (∀ (j : Fin pool.length) (h2 : j.val + 1 < pool.length),
          pool.get j = (k, e) → (pool.get ⟨j.val + 1, h2⟩).1 = k + 2) := by
  intro r r' pool hdec k e hget htag
  have hchain := read_constant_pool_chain r r' pool hdec
  have hw : slotWidth e = 2 := slotWidth_long_double htag
  have hmem : (k, e) ∈ pool := by
    unfold cpGet at hget
    obtain ⟨p, hfind, hsnd⟩ := Option.map_eq_some'.mp hget
    have h1 : p.1 = k := by
      have := List.find?_some hfind
      simpa using this
    have h2 : p ∈ pool := List.mem_of_find?_eq_some hfind
    have h3 : p = (k, e) := Prod.ext h1 hsnd
    rwa [h3] at h2
  obtain ⟨j, hj⟩ := List.get_of_mem hmem
  haveI : IsTrans (Nat × ConstantPoolInfo) (fun a b => a.1 < b.1) :=
    ⟨fun a b c h1 h2 => Nat.lt_trans h1 h2⟩
  have hpw : List.Pairwise (fun a b : Nat × ConstantPoolInfo => a.1 < b.1) pool :=
    List.chain'_iff_pairwise.mp (hchain.imp (fun a b hab => by
      have hab2 : b.1 = a.1 + slotWidth a.2 := hab
      have h1 := slotWidth_pos a.2
      omega))
  have hkey : ∀ (i1 i2 : Fin pool.length), i1 < i2 → (pool.get i1).1 < (pool.get i2).1 :=
    fun i1 i2 h12 => List.pairwise_iff_get.mp hpw i1 i2 h12
  have hadj : ∀ (i : Nat) (h : i < pool.length - 1),
      (pool.get ⟨i + 1, by omega⟩).1 =
        (pool.get ⟨i, by omega⟩).1 + slotWidth (pool.get ⟨i, by omega⟩).2 :=
    fun i h => List.chain'_iff_get.mp hchain i h
  have hno : ∀ e' : ConstantPoolInfo, (k + 1, e') ∉ pool := by
    intro e' hmem'
    obtain ⟨j', hj'⟩ := List.get_of_mem hmem'
    rcases Nat.lt_trichotomy j'.val j.val with hlt | heq | hgt
    · have hkk := hkey j' j hlt
      rw [hj, hj'] at hkk
      have hkk2 : k + 1 < k := hkk
      omega
    · have hje : j' = j := Fin.ext heq
      rw [hje, hj] at hj'
      have h5 : k = k + 1 := congrArg Prod.fst hj'
      omega
    · have hj1len : j.val + 1 ≤ j'.val := hgt
      have hlen : j.val < pool.length - 1 := by
        have := j'.isLt
        omega
      have hfin : j.val + 1 < pool.length := by omega
      have hadj1 := hadj j.val hlen
      have hjv : pool.get ⟨j.val, by omega⟩ = (k, e) := hj
      rw [hjv] at hadj1
      have h6 : (pool.get ⟨j.val + 1, hfin⟩).1 = k + slotWidth e := hadj1
      rw [hw] at h6
      rcases Nat.eq_or_lt_of_le hj1len with heq1 | hlt1
      · have hje : (⟨j.val + 1, hfin⟩ : Fin pool.length) = j' := Fin.ext heq1
        rw [hje, hj'] at h6
        have h7 : k + 1 = k + 2 := h6
        omega
      · have hkk := hkey ⟨j.val + 1, hfin⟩ j' hlt1
        rw [hj', h6] at hkk
        have h7 : k + 2 < k + 1 := hkk
        omega
  refine ⟨?_, hno, ?_⟩
  · unfold cpGet
    rw [Option.map_eq_none', List.find?_eq_none]
    intro p hp hpk
    have hp1 : p.1 = k + 1 := by simpa using hpk
    refine hno p.2 ?_
    rw [← hp1]
    exact hp
  · intro j0 h2 hj0
    have hlen0 : j0.val < pool.length - 1 := by omega
    have hadj0 := hadj j0.val hlen0
    have hj0v : pool.get ⟨j0.val, by omega⟩ = (k, e) := hj0
    rw [hj0v] at hadj0
    have : (pool.get ⟨j0.val + 1, h2⟩ : Nat × ConstantPoolInfo).1 = k + slotWidth e := hadj0
    rw [hw] at this
    exact this

/-- Witness for C1: scenario 5 of the spec — a pool with count 4 holding a
Long at index 1 (tag 5) and a Utf8 at index 3 (tag 1, length 0); index 2 is
absent. -/
theorem c1_long_double_reserved_slot_witness :
    ClassFile.read_constant_pool ⟨[0, 4, 5, 0, 0, 0, 0, 0, 0, 0, 1, 1, 0, 0], 0⟩ =
      .ok ([(1, .constantLong ⟨1, 1⟩), (3, .constantUtf8 ⟨3, 0, []⟩)],
        ⟨[0, 4, 5, 0, 0, 0, 0, 0, 0, 0, 1, 1, 0, 0], 14⟩) ∧
    cpGet [(1, .constantLong ⟨1, 1⟩), (3, .constantUtf8 ⟨3, 0, []⟩)] 2 = none :=
  ⟨by decide,
   (c1_long_double_reserved_slot ⟨[0, 4, 5, 0, 0, 0, 0, 0, 0, 0, 1, 1, 0, 0], 0⟩
      ⟨[0, 4, 5, 0, 0, 0, 0, 0, 0, 0, 1, 1, 0, 0], 14⟩
      [(1, .constantLong ⟨1, 1⟩), (3, .constantUtf8 ⟨3, 0, []⟩)]
      (by decide) 1 (.constantLong ⟨1, 1⟩) (by decide) (Or.inl (by decide))).1⟩

/-- Witness for C6: tag byte 2 is unrecognized — `from_tag` rejects it and
the entry decoder fails with `malformedTag` on the one-byte input `[2]`;
kind byte 10 is rejected by `from_kind`. -/
theorem c6_malformed_tag_errors_witness :
    (Tag.from_tag 2 = .error .malformedTag ↔
      ¬ (2 : Nat) ∈ ([1, 3, 4, 5, 6, 7, 8, 9, 10, 11, 12, 15, 16, 17, 18, 19, 20] : List Nat)) ∧
    (MethodHandleType.from_kind 10 = .error .malformedTag ↔ ¬ ((1 : Nat) ≤ 10 ∧ (10 : Nat) ≤ 9)) ∧
    ConstantPoolInfo.new 1 ⟨[2], 0⟩ = .error .malformedTag :=
  ⟨c6_malformed_tag_errors.1 2 (by decide),
   c6_malformed_tag_errors.2.1 10 (by decide),
   c6_malformed_tag_errors.2.2.2.1 1 ⟨[2], 0⟩ ⟨[2], 1⟩ 2 (by decide) (by decide)⟩

/-! ## Fields, methods and the class assembler (field.rs, method.rs, class_file.rs) -/

/-- Mirror of `FieldInfo`. -/
structure FieldInfo where
  access_flags : List FieldAccessFlags
  name_index : Nat
  descriptor_index : Nat
  attributes : List AttributeInfo
deriving Repr

/-- Mirror of `FieldInfo::new` (access flags, name, descriptor, then the
attribute list via `attributes_count` and the attribute decoder). -/
def FieldInfo.new (fuel : Nat) (pool : ConstantPoolContainer) : DecM FieldInfo := do
  let access_flags ← liftE (FieldAccessFlags.from_u16 (to_u16 (← readBytes 2)))
  let name_index := to_u16 (← readBytes 2)
  let descriptor_index := to_u16 (← readBytes 2)
  let attributes_count := to_u16 (← readBytes 2)
  let attributes ← read_attributes_list fuel pool attributes_count
  pure ⟨access_flags, name_index, descriptor_index, attributes⟩

/-- Mirror of `MethodInfo`. -/
structure MethodInfo where
  access_flags : List MethodAccessFlags
  name_index : Nat
  descriptor_index : Nat
  attributes : List AttributeInfo
deriving Repr

/-- Mirror of `MethodInfo::new`. -/
def MethodInfo.new (fuel : Nat) (pool : ConstantPoolContainer) : DecM MethodInfo := do
  let access_flags ← liftE (MethodAccessFlags.from_u16 (to_u16 (← readBytes 2)))
  let name_index := to_u16 (← readBytes 2)
  let descriptor_index := to_u16 (← readBytes 2)
  let attributes_count := to_u16 (← readBytes 2)
  let attributes ← read_attributes_list fuel pool attributes_count
  pure ⟨access_flags, name_index, descriptor_index, attributes⟩

/-- The magic number every class file must begin with. -/
def MAGIC_NUMBER : Nat := 0xCAFEBABE

/-- Mirror of `ClassFile`. -/
structure ClassFile where
  magic : Nat
  minor_version : Nat
  major_version : Nat
  constant_pool : ConstantPoolContainer
  access_flags : List ClassAccessFlags
  this_class : ConstantClassInfo
  super_class : Option ConstantClassInfo
  interfaces : List ConstantClassInfo
  fields : List FieldInfo
  methods : List MethodInfo
  attributes : List AttributeInfo
deriving Repr

/-- Mirror of `ClassFile::read_magic_number`: read four bytes big-endian and
assert the value equals 0xCAFEBABE (the assert panic is the spec's
BadMagic). -/
def ClassFile.read_magic_number : DecM Nat := do
  let magic_number := to_u32 (← readBytes 4)
  if magic_number = MAGIC_NUMBER then pure magic_number else fail .badMagic

/-- Mirror of `ClassFile::read_u16`. -/
def ClassFile.read_u16 : DecM Nat := do
  pure (to_u16 (← readBytes 2))

/-- Mirror of `ClassFile::read_access_flags`. -/
def ClassFile.read_access_flags : DecM (List ClassAccessFlags) := do
  let bitmask := to_u16 (← readBytes 2)
  liftE (ClassAccessFlags.from_u16 bitmask)

/-- Mirror of `ClassFile::read_this_class`: the pool lookup is an `expect`
(absent index panics) and a failed class downcast also panics — both are the
spec's BadPoolRef. -/
def ClassFile.read_this_class (pool : ConstantPoolContainer) : DecM ConstantClassInfo := do
  let constant_pool_index := to_u16 (← readBytes 2)
  match cpGet pool constant_pool_index with
  | none => fail .badPoolRef
  | some entry =>
    match entry.try_cast_into_class with
    | some class_info => pure class_info
    | none => fail .badPoolRef

/-- Mirror of `ClassFile::read_super_class`: index 0 yields `none`; a
nonzero index absent from the pool is an `expect` panic (BadPoolRef); a
nonzero index present but of a non-Class variant yields `none` (the source's
`match try_cast_into_class { Some(c) => Some(c.clone()), None => None }`). -/
def ClassFile.read_super_class (pool : ConstantPoolContainer) :
    DecM (Option ConstantClassInfo) := do
  let constant_pool_index := to_u16 (← readBytes 2)
  if constant_pool_index = 0 then pure none
  else
    match cpGet pool constant_pool_index with
    | none => fail .badPoolRef
    | some entry =>
      match entry.try_cast_into_class with
      | some class_info => pure (some class_info)
      | none => pure none

/-- The interface loop of `ClassFile::read_interfaces`: each index must be
present and a Class constant, else the source panics (BadPoolRef). -/
def read_interfaces_list (pool : ConstantPoolContainer) : Nat → DecM (List ConstantClassInfo)
  | 0 => pure []
  | n + 1 => do
      let constant_pool_index := to_u16 (← readBytes 2)
      match cpGet pool constant_pool_index with
      | none => fail .badPoolRef
      | some entry =>
        match entry.try_cast_into_class with
        | some c => do
            let rest ← read_interfaces_list pool n
            pure (c :: rest)
        | none => fail .badPoolRef

/-- Mirror of `ClassFile::read_interfaces`. -/
def ClassFile.read_interfaces (pool : ConstantPoolContainer) :
    DecM (List ConstantClassInfo) := do
  let interfaces_count := to_u16 (← readBytes 2)
  read_interfaces_list pool interfaces_count

/-- The field loop of `ClassFile::read_fields`. -/
def read_fields_list (fuel : Nat) (pool : ConstantPoolContainer) : Nat → DecM (List FieldInfo)
  | 0 => pure []
  | n + 1 => do
      let f ← FieldInfo.new fuel pool
      let rest ← read_fields_list fuel pool n
      pure (f :: rest)

/-- Mirror of `ClassFile::read_fields`. -/
def ClassFile.read_fields (fuel : Nat) (pool : ConstantPoolContainer) :
    DecM (List FieldInfo) := do
  let fields_count := to_u16 (← readBytes 2)
  read_fields_list fuel pool fields_count

/-- The method loop of `ClassFile::read_methods`. -/
def read_methods_list (fuel : Nat) (pool : ConstantPoolContainer) : Nat → DecM (List MethodInfo)
  | 0 => pure []
  | n + 1 => do
      let m ← MethodInfo.new fuel pool
      let rest ← read_methods_list fuel pool n
      pure (m :: rest)

/-- Mirror of `ClassFile::read_methods`. -/
def ClassFile.read_methods (fuel : Nat) (pool : ConstantPoolContainer) :
    DecM (List MethodInfo) := do
  let methods_count := to_u16 (← readBytes 2)
  read_methods_list fuel pool methods_count

/-- Mirror of `ClassFile::read_attributes` (class-level attribute list). -/
def ClassFile.read_attributes (fuel : Nat) (pool : ConstantPoolContainer) :
    DecM (List AttributeInfo) := do
  let attributes_count := to_u16 (← readBytes 2)
  read_attributes_list fuel pool attributes_count

/-- Mirror of `ClassFile::new`: the full assembler, in the source's
non-negotiable order.  `fuel` bounds the recursion of the attribute decoder
only (see `AttributeInfo.new`). -/
def ClassFile.new (fuel : Nat) : DecM ClassFile := do
  let magic ← ClassFile.read_magic_number
  let minor_version ← ClassFile.read_u16
  let major_version ← ClassFile.read_u16
  let constant_pool ← ClassFile.read_constant_pool
  let access_flags ← ClassFile.read_access_flags
  let this_class ← ClassFile.read_this_class constant_pool
  let super_class ← ClassFile.read_super_class constant_pool
  let interfaces ← ClassFile.read_interfaces constant_pool
  let fields ← ClassFile.read_fields fuel constant_pool
  let methods ← ClassFile.read_methods fuel constant_pool
  let attributes ← ClassFile.read_attributes fuel constant_pool
  pure ⟨magic, minor_version, major_version, constant_pool, access_flags, this_class,
    super_class, interfaces, fields, methods, attributes⟩

/-! ## C3: super-class resolution -/

/-- C3 counterexample: index 1 resolves to an Integer constant (present but
not a Class variant); the decoder returns an *absent* super-class instead of
failing with BadPoolRef, so the claim is false at this input. -/
theorem c3_counterexample :
    ClassFile.read_super_class [(1, .constantInteger ⟨1, 42⟩)] ⟨[0, 1], 0⟩ =
      .ok (none, ⟨[0, 1], 2⟩) ∧
    ClassFile.read_super_class [(1, .constantInteger ⟨1, 42⟩)] ⟨[0, 1], 0⟩ ≠
      .error .badPoolRef := by
  refine ⟨by decide, ?_⟩
  intro h
  rw [show ClassFile.read_super_class [(1, .constantInteger ⟨1, 42⟩)] ⟨[0, 1], 0⟩ =
    .ok (none, ⟨[0, 1], 2⟩) from by decide] at h
  exact Except.noConfusion h

/-- C3 (amended): super-class index 0 yields an absent super-class; a
nonzero index that is not a key of the pool is a fatal BadPoolRef; a nonzero
index that resolves to a non-Class constant yields an absent super-class
(no error); and a nonzero index resolving to a Class constant yields that
class. -/
theorem c3_super_class_resolution :
    (∀ (pool : ConstantPoolContainer) (r r1 : ByteReader) (bs : List Nat),
        r.read_n_bytes 2 = (r1, some bs) → to_u16 bs = 0 →
        ClassFile.read_super_class pool r = .ok (none, r1)) ∧
    (∀ (pool : ConstantPoolContainer) (r r1 : ByteReader) (bs : List Nat),
        r.read_n_bytes 2 = (r1, some bs) → to_u16 bs ≠ 0 →
        cpGet pool (to_u16 bs) = none →
        ClassFile.read_super_class pool r = .error .badPoolRef) ∧
    (∀ (pool : ConstantPoolContainer) (r r1 : ByteReader) (bs : List Nat)
        (entry : ConstantPoolInfo),
        r.read_n_bytes 2 = (r1, some bs) → to_u16 bs ≠ 0 →
        cpGet pool (to_u16 bs) = some entry → entry.try_cast_into_class = none →
        ClassFile.read_super_class pool r = .ok (none, r1)) ∧
    (∀ (pool : ConstantPoolContainer) (r r1 : ByteReader) (bs : List Nat)
        (entry : ConstantPoolInfo) (c : ConstantClassInfo),
        r.read_n_bytes 2 = (r1, some bs) → to_u16 bs ≠ 0 →
        cpGet pool (to_u16 bs) = some entry → entry.try_cast_into_class = some c →
        ClassFile.read_super_class pool r = .ok (some c, r1)) := by
  refine ⟨?_, ?_, ?_, ?_⟩
  · intro pool r r1 bs h h0
    unfold ClassFile.read_super_class
    rw [bind_apply]
    simp only [readBytes, h]
    rw [if_pos h0]
    rfl
  · intro pool r r1 bs h h0 hget
    unfold ClassFile.read_super_class
    rw [bind_apply_ok (readBytes_ok h), if_neg h0]
    simp only [hget]
    rfl
  · intro pool r r1 bs entry h h0 hget hcast
    unfold ClassFile.read_super_class
    rw [bind_apply_ok (readBytes_ok h), if_neg h0]
    simp only [hget, hcast]
    rfl
  · intro pool r r1 bs entry c h h0 hget hcast
    unfold ClassFile.read_super_class
    rw [bind_apply_ok (readBytes_ok h), if_neg h0]
    simp only [hget, hcast]
    rfl

/-- Witness for C3's amended theorem: index 0 gives an absent super-class,
and a dangling nonzero index (empty pool) gives BadPoolRef. -/
theorem c3_super_class_resolution_witness :
    ClassFile.read_super_class [] ⟨[0, 0], 0⟩ = .ok (none, ⟨[0, 0], 2⟩) ∧
    ClassFile.read_super_class [] ⟨[0, 7], 0⟩ = .error .badPoolRef :=
  ⟨c3_super_class_resolution.1 [] ⟨[0, 0], 0⟩ ⟨[0, 0], 2⟩ [0, 0] (by decide) (by decide),
   c3_super_class_resolution.2.1 [] ⟨[0, 7], 0⟩ ⟨[0, 7], 2⟩ [0, 7] (by decide) (by decide)
     (by decide)⟩

/-! ## C2: attribute lengths -/

/-- C2 counterexample: a LineNumberTable attribute that declares
`attribute_length = 100` but whose payload (an empty entry list) occupies
only 2 bytes decodes successfully — total consumption is 8 bytes (6-byte
header + 2-byte payload), not 6 + 100 — and no LengthMismatch is raised, so
the claim is false at this input. -/
theorem c2_counterexample :
    AttributeInfo.new 5 [(1, .constantUtf8 ⟨1, 15, nameLineNumberTable⟩)]
        ⟨[0, 1, 0, 0, 0, 100, 0, 0], 0⟩ =
      .ok (.lineNumberTable 1 100 [], ⟨[0, 1, 0, 0, 0, 100, 0, 0], 8⟩) ∧
    (8 : Nat) - 6 ≠ 100 :=
  ⟨rfl, by decide⟩

/-- Replace the stored `attribute_length` field of a decoded attribute,
leaving every other field untouched.  Used to state that the non-ConstantValue
readers consult the declared length only to store it in the result. -/
def setLen (len : Nat) : AttributeInfo → AttributeInfo
  | .constantValue ni _ ci => .constantValue ni len ci
  | .code ni _ ms ml c et ats => .code ni len ms ml c et ats
  | .exceptions ni _ ne tbl => .exceptions ni len ne tbl
  | .innerClasses ni _ cs => .innerClasses ni len cs
  | .enclosingMethod ni _ ci mi => .enclosingMethod ni len ci mi
  | .synthetic ni _ => .synthetic ni len
  | .signature ni _ si => .signature ni len si
  | .sourceFile ni _ si => .sourceFile ni len si
  | .sourceDebugExtension ni _ de => .sourceDebugExtension ni len de
  | .lineNumberTable ni _ tbl => .lineNumberTable ni len tbl
  | .deprecated ni _ => .deprecated ni len
  | .bootstrapMethods ni _ bm => .bootstrapMethods ni len bm

/-- Length-blindness is preserved by binding a common first step. -/
theorem setLen_bind {α : Type} (len : Nat) (m : DecM α)
    (k kB : α → DecM AttributeInfo)
    (h : ∀ (a : α) (r : ByteReader),
        k a r = Except.map (fun p => (setLen len p.1, p.2)) (kB a r))
    (r : ByteReader) :
    (m >>= k) r = Except.map (fun p => (setLen len p.1, p.2)) ((m >>= kB) r) := by
  rw [bind_apply, bind_apply]
  cases m r with
  | error e => rfl
  | ok p =>
      obtain ⟨a, r1⟩ := p
      exact h a r1

/-- Length-blindness at a final `pure`: the two results differ exactly by
the stored length field. -/
theorem setLen_pure (len : Nat) (a b : AttributeInfo) (h : setLen len b = a)
    (r : ByteReader) :
    (pure a : DecM AttributeInfo) r =
      Except.map (fun p => (setLen len p.1, p.2)) ((pure b : DecM AttributeInfo) r) := by
  rw [pure_apply, pure_apply]
  simp [Except.map, h]

/-- `read_data_as_code` is length-blind: any two declared lengths give the
same outcome up to the stored `attribute_length` field. -/
theorem read_data_as_code_len (fuel : Nat) (pool : ConstantPoolContainer)
    (ni len lenB : Nat) (r : ByteReader) :
    read_data_as_code fuel pool ni len r =
      Except.map (fun p => (setLen len p.1, p.2)) (read_data_as_code fuel pool ni lenB r) := by
  cases fuel with
  | zero => rfl
  | succ fuel =>
      unfold read_data_as_code
      refine setLen_bind len _ _ _ (fun a1 r => ?_) r
      refine setLen_bind len _ _ _ (fun a2 r => ?_) r
      refine setLen_bind len _ _ _ (fun a3 r => ?_) r
      refine setLen_bind len _ _ _ (fun a4 r => ?_) r
      refine setLen_bind len _ _ _ (fun a5 r => ?_) r
      refine setLen_bind len _ _ _ (fun a6 r => ?_) r
      refine setLen_bind len _ _ _ (fun a7 r => ?_) r
      refine setLen_bind len _ _ _ (fun a8 r => ?_) r
      refine setLen_pure len _ _ ?_ r
      rfl

/-- `read_data_as_exceptions` is length-blind. -/
theorem read_data_as_exceptions_len (ni len lenB : Nat) (r : ByteReader) :
    read_data_as_exceptions ni len r =
      Except.map (fun p => (setLen len p.1, p.2)) (read_data_as_exceptions ni lenB r) := by
  unfold read_data_as_exceptions
  refine setLen_bind len _ _ _ (fun a1 r => ?_) r
  refine setLen_bind len _ _ _ (fun a2 r => ?_) r
  refine setLen_pure len _ _ ?_ r
  rfl

/-- `read_data_as_inner_classes` is length-blind. -/
theorem read_data_as_inner_classes_len (ni len lenB : Nat) (r : ByteReader) :
    read_data_as_inner_classes ni len r =
      Except.map (fun p => (setLen len p.1, p.2)) (read_data_as_inner_classes ni lenB r) := by
  unfold read_data_as_inner_classes
  refine setLen_bind len _ _ _ (fun a1 r => ?_) r
  refine setLen_bind len _ _ _ (fun a2 r => ?_) r
  refine setLen_pure len _ _ ?_ r
  rfl

/-- `read_data_as_enclosing_method` is length-blind. -/
theorem read_data_as_enclosing_method_len (ni len lenB : Nat) (r : ByteReader) :
    read_data_as_enclosing_method ni len r =
      Except.map (fun p => (setLen len p.1, p.2)) (read_data_as_enclosing_method ni lenB r) := by
  unfold read_data_as_enclosing_method
  refine setLen_bind len _ _ _ (fun a1 r => ?_) r
  refine setLen_bind len _ _ _ (fun a2 r => ?_) r
  refine setLen_pure len _ _ ?_ r
  rfl

/-- `read_data_as_synthetic` is length-blind. -/
theorem read_data_as_synthetic_len (ni len lenB : Nat) (r : ByteReader) :
    read_data_as_synthetic ni len r =
      Except.map (fun p => (setLen len p.1, p.2)) (read_data_as_synthetic ni lenB r) := by
  unfold read_data_as_synthetic
  refine setLen_pure len _ _ ?_ r
  rfl

/-- `read_data_as_signature` is length-blind. -/
theorem read_data_as_signature_len (ni len lenB : Nat) (r : ByteReader) :
    read_data_as_signature ni len r =
      Except.map (fun p => (setLen len p.1, p.2)) (read_data_as_signature ni lenB r) := by
  unfold read_data_as_signature
  refine setLen_bind len _ _ _ (fun a1 r => ?_) r
  refine setLen_pure len _ _ ?_ r
  rfl

/-- `read_data_as_source_file` is length-blind. -/
theorem read_data_as_source_file_len (ni len lenB : Nat) (r : ByteReader) :
    read_data_as_source_file ni len r =
      Except.map (fun p => (setLen len p.1, p.2)) (read_data_as_source_file ni lenB r) := by
  unfold read_data_as_source_file
  refine setLen_bind len _ _ _ (fun a1 r => ?_) r
  refine setLen_pure len _ _ ?_ r
  rfl

/-- `read_data_as_line_number_table` is length-blind. -/
theorem read_data_as_line_number_table_len (ni len lenB : Nat) (r : ByteReader) :
    read_data_as_line_number_table ni len r =
      Except.map (fun p => (setLen len p.1, p.2)) (read_data_as_line_number_table ni lenB r) := by
  unfold read_data_as_line_number_table
  refine setLen_bind len _ _ _ (fun a1 r => ?_) r
  refine setLen_bind len _ _ _ (fun a2 r => ?_) r
  refine setLen_pure len _ _ ?_ r
  rfl

/-- `read_data_as_deprecated` is length-blind. -/
theorem read_data_as_deprecated_len (ni len lenB : Nat) (r : ByteReader) :
    read_data_as_deprecated ni len r =
      Except.map (fun p => (setLen len p.1, p.2)) (read_data_as_deprecated ni lenB r) := by
  unfold read_data_as_deprecated
  refine setLen_pure len _ _ ?_ r
  rfl

/-- `read_data_as_bootstrap_methods` is length-blind. -/
theorem read_data_as_bootstrap_methods_len (ni len lenB : Nat) (r : ByteReader) :
    read_data_as_bootstrap_methods ni len r =
      Except.map (fun p => (setLen len p.1, p.2)) (read_data_as_bootstrap_methods ni lenB r) := by
  unfold read_data_as_bootstrap_methods
  refine setLen_bind len _ _ _ (fun a1 r => ?_) r
  refine setLen_bind len _ _ _ (fun a2 r => ?_) r
  refine setLen_pure len _ _ ?_ r
  rfl

/-- C2 (amended): (1) only the ConstantValue variant checks its declared
length — `read_data_as_constant_value` fails fatally (the source's
`assert_eq!(attribute_length, 2)`) whenever the declared length differs
from 2 and (2) on length 2 consumes exactly the 2 payload bytes.
(3) SourceDebugExtension uses the declared length as its payload size,
consuming exactly `attribute_length` bytes with no validation.
(4)–(13) every other implemented variant — Code, Exceptions, InnerClasses,
EnclosingMethod, Synthetic, Signature, SourceFile, LineNumberTable,
Deprecated, BootstrapMethods — is length-blind: the result for declared
length `len` equals the result for any other declared length `lenB` up to
the stored `attribute_length` field (same success or failure, same final
reader state), so no consumed-vs-declared comparison exists anywhere. -/
theorem c2_attribute_length_checks :
    (∀ (ni len : Nat) (r : ByteReader),
        len ≠ 2 →
        read_data_as_constant_value ni len r = .error .lengthMismatch) ∧
    (∀ (ni : Nat) (r r1 : ByteReader) (bs : List Nat),
        r.read_n_bytes 2 = (r1, some bs) →
        read_data_as_constant_value ni 2 r =
          .ok (.constantValue ni 2 (to_u16 bs), r1)) ∧
    (∀ (ni len : Nat) (r r1 : ByteReader) (bs : List Nat),
        r.read_n_bytes len = (r1, some bs) →
        read_data_as_source_debug_extension ni len r =
          .ok (.sourceDebugExtension ni len bs, r1)) ∧
    (∀ (fuel : Nat) (pool : ConstantPoolContainer) (ni len lenB : Nat) (r : ByteReader),
        read_data_as_code fuel pool ni len r =
          Except.map (fun p => (setLen len p.1, p.2))
            (read_data_as_code fuel pool ni lenB r)) ∧
    (∀ (ni len lenB : Nat) (r : ByteReader),
        read_data_as_exceptions ni len r =
          Except.map (fun p => (setLen len p.1, p.2)) (read_data_as_exceptions ni lenB r)) ∧
    (∀ (ni len lenB : Nat) (r : ByteReader),
        read_data_as_inner_classes ni len r =
          Except.map (fun p => (setLen len p.1, p.2)) (read_data_as_inner_classes ni lenB r)) ∧
    (∀ (ni len lenB : Nat) (r : ByteReader),
        read_data_as_enclosing_method ni len r =
          Except.map (fun p => (setLen len p.1, p.2)) (read_data_as_enclosing_method ni lenB r)) ∧
    (∀ (ni len lenB : Nat) (r : ByteReader),
        read_data_as_synthetic ni len r =
          Except.map (fun p => (setLen len p.1, p.2)) (read_data_as_synthetic ni lenB r)) ∧
    (∀ (ni len lenB : Nat) (r : ByteReader),
        read_data_as_signature ni len r =
          Except.map (fun p => (setLen len p.1, p.2)) (read_data_as_signature ni lenB r)) ∧
    (∀ (ni len lenB : Nat) (r : ByteReader),
        read_data_as_source_file ni len r =
          Except.map (fun p => (setLen len p.1, p.2)) (read_data_as_source_file ni lenB r)) ∧
    (∀ (ni len lenB : Nat) (r : ByteReader),
        read_data_as_line_number_table ni len r =
          Except.map (fun p => (setLen len p.1, p.2))
            (read_data_as_line_number_table ni lenB r)) ∧
    (∀ (ni len lenB : Nat) (r : ByteReader),
        read_data_as_deprecated ni len r =
          Except.map (fun p => (setLen len p.1, p.2)) (read_data_as_deprecated ni lenB r)) ∧
    (∀ (ni len lenB : Nat) (r : ByteReader),
        read_data_as_bootstrap_methods ni len r =
          Except.map (fun p => (setLen len p.1, p.2))
            (read_data_as_bootstrap_methods ni lenB r)) := by
  refine ⟨?_, ?_, ?_, ?_, ?_, ?_, ?_, ?_, ?_, ?_, ?_, ?_, ?_⟩
  · intro ni len r hlen
    unfold read_data_as_constant_value
    rw [if_neg hlen]
    rfl
  · intro ni r r1 bs h
    unfold read_data_as_constant_value
    rw [if_pos rfl, bind_apply]
    simp only [readBytes, h]
    rfl
  · intro ni len r r1 bs h
    unfold read_data_as_source_debug_extension
    rw [bind_apply]
    simp only [readBytes, h]
    rfl
  · exact read_data_as_code_len
  · exact read_data_as_exceptions_len
  · exact read_data_as_inner_classes_len
  · exact read_data_as_enclosing_method_len
  · exact read_data_as_synthetic_len
  · exact read_data_as_signature_len
  · exact read_data_as_source_file_len
  · exact read_data_as_line_number_table_len
  · exact read_data_as_deprecated_len
  · exact read_data_as_bootstrap_methods_len

/-- Witness for C2's amended theorem: ConstantValue with declared length 5
fails with LengthMismatch; SourceDebugExtension with declared length 3 eats
exactly 3 bytes; LineNumberTable declaring length 100 behaves exactly as it
would declaring length 2, up to the stored length field. -/
theorem c2_attribute_length_checks_witness :
    read_data_as_constant_value 1 5 ⟨[], 0⟩ = .error .lengthMismatch ∧
    read_data_as_source_debug_extension 1 3 ⟨[7, 8, 9, 10], 0⟩ =
      .ok (.sourceDebugExtension 1 3 [7, 8, 9], ⟨[7, 8, 9, 10], 3⟩) ∧
    read_data_as_line_number_table 1 100 ⟨[0, 0], 0⟩ =
      Except.map (fun p => (setLen 100 p.1, p.2))
        (read_data_as_line_number_table 1 2 ⟨[0, 0], 0⟩) :=
  ⟨c2_attribute_length_checks.1 1 5 ⟨[], 0⟩ (by decide),
   c2_attribute_length_checks.2.2.1 1 3 ⟨[7, 8, 9, 10], 0⟩ ⟨[7, 8, 9, 10], 3⟩ [7, 8, 9]
     (by decide),
   c2_attribute_length_checks.2.2.2.2.2.2.2.2.2.2.1 1 100 2 ⟨[0, 0], 0⟩⟩

/-! ## C8: the Code attribute -/

/-- Full characterisation of the exception-table loop: on success it
returns exactly `n` entries, consumes exactly `8 * n` bytes, and entry `i`
is built from the four consecutive big-endian u16 fields starting at byte
offset `8 * i` of the loop's input position. -/
theorem read_exception_table_spec :
    ∀ (n : Nat) (r : ByteReader) (es : List ExceptionTableEntry) (r1 : ByteReader),
      read_exception_table n r = .ok (es, r1) →
      es.length = n ∧ r1.data = r.data ∧ r1.position = r.position + 8 * n ∧
        ∀ (i : Nat) (hi : i < es.length),
          es.get ⟨i, hi⟩ =
            ⟨to_u16 ((r.data.drop (r.position + 8 * i)).take 2),
             to_u16 ((r.data.drop (r.position + 8 * i + 2)).take 2),
             to_u16 ((r.data.drop (r.position + 8 * i + 4)).take 2),
             to_u16 ((r.data.drop (r.position + 8 * i + 6)).take 2)⟩ := by
  intro n
  induction n with
  | zero =>
      intro r es r1 h
      rw [read_exception_table_zero, pure_apply] at h
      injection h with h2
      injection h2 with he hr
      subst he
      subst hr
      refine ⟨rfl, rfl, by omega, ?_⟩
      intro i hi
      exact absurd hi (by simp)
  | succ n ih =>
      intro r es r1 h
      rw [read_exception_table_succ] at h
      obtain ⟨b1, ra, hb1, h⟩ := bind_ok_inv h
      obtain ⟨b2, rb, hb2, h⟩ := bind_ok_inv h
      obtain ⟨b3, rc, hb3, h⟩ := bind_ok_inv h
      obtain ⟨b4, rd, hb4, h⟩ := bind_ok_inv h
      obtain ⟨rest, re, hrest, h⟩ := bind_ok_inv h
      rw [pure_apply] at h
      injection h with h2
      injection h2 with he hr
      subst he
      subst hr
      obtain ⟨hda, hpa, hba, hlea⟩ := readBytes_ok_inv hb1
      obtain ⟨hdb, hpb, hbb, hleb⟩ := readBytes_ok_inv hb2
      obtain ⟨hdc, hpc, hbc, hlec⟩ := readBytes_ok_inv hb3
      obtain ⟨hdd, hpd, hbd, hled⟩ := readBytes_ok_inv hb4
      obtain ⟨hlen, hdat, hpos, hget⟩ := ih rd rest re hrest
      rw [hda] at hdb hbb
      rw [hpa] at hpb hbb
      rw [hdb] at hdc hbc
      rw [hpb] at hpc hbc
      rw [hdc] at hdd hbd
      rw [hpc] at hpd hbd
      rw [hdd] at hdat hget
      rw [hpd] at hpos hget
      refine ⟨by simp [hlen], hdat, by omega, ?_⟩
      intro i hi
      cases i with
      | zero =>
          show (⟨to_u16 b1, to_u16 b2, to_u16 b3, to_u16 b4⟩ : ExceptionTableEntry) = _
          rw [hba, hbb, hbc, hbd]
          have e1 : r.position + 8 * 0 = r.position := by omega
          have e2 : r.position + 2 + 2 = r.position + 4 := by omega
          have e3 : r.position + 4 + 2 = r.position + 6 := by omega
          rw [e1, e2, e3]
      | succ j =>
          refine (hget j (Nat.lt_of_succ_lt_succ hi)).trans ?_
          have f1 : r.position + 8 * (j + 1) = r.position + 2 + 2 + 2 + 2 + 8 * j := by
            omega
          rw [f1]

set_option maxHeartbeats 1600000 in
/-- C8: the Code reader consumes, in order, max_stack (u16), max_locals
(u16), code_length (u32), `code_length` code bytes, exception_table_length
(u16), that many exception-table entries of four u16 fields each, and the
recursive nested attribute list.  Concretely: scenario 6's payload
(max_stack=1, max_locals=1, code=[0xB1], empty exception table, one nested
LineNumberTable "(0, 42)") decodes to the expected Code model, consuming
exactly the outer attribute_length of 25 payload bytes (31 with the 6-byte
header); a Code attribute declaring two exception-table entries decodes
both entries from their 4×u16 fields.  Generally: the Code reader's fields
are the values of the corresponding successive reads for an *arbitrary*
successfully decoded exception table, and the exception-table loop itself
returns, for every count `n`, exactly `n` entries of four big-endian u16
fields each, consuming exactly `8 * n` bytes. -/
theorem c8_code_attribute :
    (AttributeInfo.new 5
        [(1, .constantUtf8 ⟨1, 4, nameCode⟩), (2, .constantUtf8 ⟨2, 15, nameLineNumberTable⟩)]
        ⟨[0, 1, 0, 0, 0, 25, 0, 1, 0, 1, 0, 0, 0, 1, 177, 0, 0, 0, 1,
          0, 2, 0, 0, 0, 6, 0, 1, 0, 0, 0, 42], 0⟩ =
      .ok (.code 1 25 1 1 [177] [] [.lineNumberTable 2 6 [⟨0, 42⟩]],
        ⟨[0, 1, 0, 0, 0, 25, 0, 1, 0, 1, 0, 0, 0, 1, 177, 0, 0, 0, 1,
          0, 2, 0, 0, 0, 6, 0, 1, 0, 0, 0, 42], 31⟩) ∧
      (31 : Nat) = 6 + 25) ∧
    (AttributeInfo.new 2 [(1, .constantUtf8 ⟨1, 4, nameCode⟩)]
        ⟨[0, 1, 0, 0, 0, 30, 0, 2, 0, 3, 0, 0, 0, 2, 177, 177, 0, 2,
          0, 1, 0, 5, 0, 9, 0, 2, 1, 0, 1, 2, 1, 4, 0, 0, 0, 0], 0⟩ =
      .ok (.code 1 30 2 3 [177, 177] [⟨1, 5, 9, 2⟩, ⟨256, 258, 260, 0⟩] [],
        ⟨[0, 1, 0, 0, 0, 30, 0, 2, 0, 3, 0, 0, 0, 2, 177, 177, 0, 2,
          0, 1, 0, 5, 0, 9, 0, 2, 1, 0, 1, 2, 1, 4, 0, 0, 0, 0], 36⟩)) ∧
    (∀ (fuel : Nat) (pool : ConstantPoolContainer) (ni len : Nat)
        (r r1 r2 r3 r4 r5 r5b r6 : ByteReader) (s1 s2 s3 cb s5 s6 : List Nat)
        (et : List ExceptionTableEntry),
        r.read_n_bytes 2 = (r1, some s1) →
        r1.read_n_bytes 2 = (r2, some s2) →
        r2.read_n_bytes 4 = (r3, some s3) →
        r3.read_n_bytes (to_u32 s3) = (r4, some cb) →
        r4.read_n_bytes 2 = (r5, some s5) →
        read_exception_table (to_u16 s5) r5 = .ok (et, r5b) →
        r5b.read_n_bytes 2 = (r6, some s6) → to_u16 s6 = 0 →
        read_data_as_code (fuel + 1) pool ni len r =
          .ok (.code ni len (to_u16 s1) (to_u16 s2) cb et [], r6)) ∧
    (∀ (n : Nat) (r : ByteReader) (es : List ExceptionTableEntry) (r1 : ByteReader),
        read_exception_table n r = .ok (es, r1) →
        es.length = n ∧ r1.data = r.data ∧ r1.position = r.position + 8 * n ∧
          ∀ (i : Nat) (hi : i < es.length),
            es.get ⟨i, hi⟩ =
              ⟨to_u16 ((r.data.drop (r.position + 8 * i)).take 2),
               to_u16 ((r.data.drop (r.position + 8 * i + 2)).take 2),
               to_u16 ((r.data.drop (r.position + 8 * i + 4)).take 2),
               to_u16 ((r.data.drop (r.position + 8 * i + 6)).take 2)⟩) := by
  refine ⟨⟨rfl, rfl⟩, rfl, ?_, read_exception_table_spec⟩
  intro fuel pool ni len r r1 r2 r3 r4 r5 r5b r6 s1 s2 s3 cb s5 s6 et
    h1 h2 h3 h4 h5 hex h6 h60
  unfold read_data_as_code
  simp only [bind_apply_ok (readBytes_ok h1), bind_apply_ok (readBytes_ok h2),
    bind_apply_ok (readBytes_ok h3), bind_apply_ok (readBytes_ok h4),
    bind_apply_ok (readBytes_ok h5), bind_apply_ok hex,
    bind_apply_ok (readBytes_ok h6), h60,
    read_attributes_list_zero, pure_bind_apply, pure_apply]

/-- Witness for C8's general conjuncts: a Code payload with no code bytes,
one 4×u16 exception-table entry and no nested attributes, plus the
length/consumption facts of the exception-table loop at count 1. -/
theorem c8_code_attribute_witness :
    read_data_as_code 1 [] 7 12
        ⟨[0, 1, 0, 1, 0, 0, 0, 0, 0, 1, 0, 1, 0, 5, 0, 9, 0, 2, 0, 0], 0⟩ =
      .ok (.code 7 12 1 1 [] [⟨1, 5, 9, 2⟩] [],
        ⟨[0, 1, 0, 1, 0, 0, 0, 0, 0, 1, 0, 1, 0, 5, 0, 9, 0, 2, 0, 0], 20⟩) ∧
    ([(⟨1, 5, 9, 2⟩ : ExceptionTableEntry)]).length = 1 ∧
    (⟨[0, 1, 0, 5, 0, 9, 0, 2], 8⟩ : ByteReader).position =
      (⟨[0, 1, 0, 5, 0, 9, 0, 2], 0⟩ : ByteReader).position + 8 * 1 :=
  ⟨c8_code_attribute.2.2.1 0 [] 7 12
      ⟨[0, 1, 0, 1, 0, 0, 0, 0, 0, 1, 0, 1, 0, 5, 0, 9, 0, 2, 0, 0], 0⟩
      ⟨[0, 1, 0, 1, 0, 0, 0, 0, 0, 1, 0, 1, 0, 5, 0, 9, 0, 2, 0, 0], 2⟩
      ⟨[0, 1, 0, 1, 0, 0, 0, 0, 0, 1, 0, 1, 0, 5, 0, 9, 0, 2, 0, 0], 4⟩
      ⟨[0, 1, 0, 1, 0, 0, 0, 0, 0, 1, 0, 1, 0, 5, 0, 9, 0, 2, 0, 0], 8⟩
      ⟨[0, 1, 0, 1, 0, 0, 0, 0, 0, 1, 0, 1, 0, 5, 0, 9, 0, 2, 0, 0], 8⟩
      ⟨[0, 1, 0, 1, 0, 0, 0, 0, 0, 1, 0, 1, 0, 5, 0, 9, 0, 2, 0, 0], 10⟩
      ⟨[0, 1, 0, 1, 0, 0, 0, 0, 0, 1, 0, 1, 0, 5, 0, 9, 0, 2, 0, 0], 18⟩
      ⟨[0, 1, 0, 1, 0, 0, 0, 0, 0, 1, 0, 1, 0, 5, 0, 9, 0, 2, 0, 0], 20⟩
      [0, 1] [0, 1] [0, 0, 0, 0] [] [0, 1] [0, 0] [⟨1, 5, 9, 2⟩]
      (by decide) (by decide) (by decide) (by decide) (by decide) (by decide)
      (by decide) (by decide),
   (c8_code_attribute.2.2.2 1 ⟨[0, 1, 0, 5, 0, 9, 0, 2], 0⟩ [⟨1, 5, 9, 2⟩]
      ⟨[0, 1, 0, 5, 0, 9, 0, 2], 8⟩ (by decide)).1,
   (c8_code_attribute.2.2.2 1 ⟨[0, 1, 0, 5, 0, 9, 0, 2], 0⟩ [⟨1, 5, 9, 2⟩]
      ⟨[0, 1, 0, 5, 0, 9, 0, 2], 8⟩ (by decide)).2.2.1⟩

/-! ## C7: the magic number

`badMagic` is produced by exactly one site (`ClassFile.read_magic_number`);
the lemmas below crawl the rest of the pipeline showing no other stage can
produce it. -/

/-- `ClassAccessFlags.from_u16` fails only with `emptyFlags`. -/
theorem class_from_u16_error {m : Nat} {e : JErr}
    (h : ClassAccessFlags.from_u16 m = .error e) : e = .emptyFlags := by
  exact assertNonempty_error h

/-- `FieldAccessFlags.from_u16` fails only with `emptyFlags`. -/
theorem field_from_u16_error {m : Nat} {e : JErr}
    (h : FieldAccessFlags.from_u16 m = .error e) : e = .emptyFlags := by
  exact assertNonempty_error h

/-- `MethodAccessFlags.from_u16` fails only with `emptyFlags`. -/
theorem method_from_u16_error {m : Nat} {e : JErr}
    (h : MethodAccessFlags.from_u16 m = .error e) : e = .emptyFlags := by
  exact assertNonempty_error h

/-- `NestedClassAccessFlags.from_u16` fails only with `emptyFlags`. -/
theorem nested_from_u16_error {m : Nat} {e : JErr}
    (h : NestedClassAccessFlags.from_u16 m = .error e) : e = .emptyFlags := by
  exact assertNonempty_error h

theorem readU16List_noBadMagic : ∀ n : Nat, avoids (readU16List n) .badMagic := by
  intro n
  induction n with
  | zero => exact avoids_pure _ _
  | succ n ih =>
      unfold readU16List
      exact avoids_bind (avoids_readBytes (by decide))
        (fun a => avoids_bind ih (fun rest => avoids_pure _ _))

theorem read_exception_table_noBadMagic : ∀ n : Nat,
    avoids (read_exception_table n) .badMagic := by
  intro n
  induction n with
  | zero => exact avoids_pure _ _
  | succ n ih =>
      unfold read_exception_table
      refine avoids_bind (avoids_readBytes (by decide)) (fun a => ?_)
      refine avoids_bind (avoids_readBytes (by decide)) (fun b => ?_)
      refine avoids_bind (avoids_readBytes (by decide)) (fun c => ?_)
      refine avoids_bind (avoids_readBytes (by decide)) (fun d => ?_)
      exact avoids_bind ih (fun rest => avoids_pure _ _)

theorem read_line_number_entries_noBadMagic : ∀ n : Nat,
    avoids (read_line_number_entries n) .badMagic := by
  intro n
  induction n with
  | zero => exact avoids_pure _ _
  | succ n ih =>
      unfold read_line_number_entries
      refine avoids_bind (avoids_readBytes (by decide)) (fun a => ?_)
      refine avoids_bind (avoids_readBytes (by decide)) (fun b => ?_)
      exact avoids_bind ih (fun rest => avoids_pure _ _)

theorem read_inner_class_entries_noBadMagic : ∀ n : Nat,
    avoids (read_inner_class_entries n) .badMagic := by
  intro n
  induction n with
  | zero => exact avoids_pure _ _
  | succ n ih =>
      unfold read_inner_class_entries
      refine avoids_bind (avoids_readBytes (by decide)) (fun a => ?_)
      refine avoids_bind (avoids_readBytes (by decide)) (fun b => ?_)
      refine avoids_bind (avoids_readBytes (by decide)) (fun c => ?_)
      refine avoids_bind (avoids_readBytes (by decide)) (fun d => ?_)
      refine avoids_bind (avoids_liftE (fun hx =>
        absurd (nested_from_u16_error hx) (by decide))) (fun fl => ?_)
      exact avoids_bind ih (fun rest => avoids_pure _ _)

theorem read_bootstrap_entries_noBadMagic : ∀ n : Nat,
    avoids (read_bootstrap_entries n) .badMagic := by
  intro n
  induction n with
  | zero => exact avoids_pure _ _
  | succ n ih =>
      unfold read_bootstrap_entries
      refine avoids_bind (avoids_readBytes (by decide)) (fun a => ?_)
      refine avoids_bind (avoids_readBytes (by decide)) (fun b => ?_)
      refine avoids_bind (readU16List_noBadMagic _) (fun args => ?_)
      exact avoids_bind ih (fun rest => avoids_pure _ _)

theorem read_data_as_constant_value_noBadMagic (ni len : Nat) :
    avoids (read_data_as_constant_value ni len) .badMagic := by
  unfold read_data_as_constant_value
  split
  · exact avoids_bind (avoids_readBytes (by decide)) (fun a => avoids_pure _ _)
  · exact avoids_fail (by decide)

theorem read_data_as_exceptions_noBadMagic (ni len : Nat) :
    avoids (read_data_as_exceptions ni len) .badMagic := by
  unfold read_data_as_exceptions
  exact avoids_bind (avoids_readBytes (by decide))
    (fun a => avoids_bind (readU16List_noBadMagic _) (fun t => avoids_pure _ _))

theorem read_data_as_inner_classes_noBadMagic (ni len : Nat) :
    avoids (read_data_as_inner_classes ni len) .badMagic := by
  unfold read_data_as_inner_classes
  exact avoids_bind (avoids_readBytes (by decide))
    (fun a => avoids_bind (read_inner_class_entries_noBadMagic _) (fun t => avoids_pure _ _))

theorem read_data_as_enclosing_method_noBadMagic (ni len : Nat) :
    avoids (read_data_as_enclosing_method ni len) .badMagic := by
  unfold read_data_as_enclosing_method
  exact avoids_bind (avoids_readBytes (by decide))
    (fun a => avoids_bind (avoids_readBytes (by decide)) (fun b => avoids_pure _ _))

theorem read_data_as_synthetic_noBadMagic (ni len : Nat) :
    avoids (read_data_as_synthetic ni len) .badMagic :=
  avoids_pure _ _

theorem read_data_as_signature_noBadMagic (ni len : Nat) :
    avoids (read_data_as_signature ni len) .badMagic := by
  unfold read_data_as_signature
  exact avoids_bind (avoids_readBytes (by decide)) (fun a => avoids_pure _ _)

theorem read_data_as_source_file_noBadMagic (ni len : Nat) :
    avoids (read_data_as_source_file ni len) .badMagic := by
  unfold read_data_as_source_file
  exact avoids_bind (avoids_readBytes (by decide)) (fun a => avoids_pure _ _)

theorem read_data_as_source_debug_extension_noBadMagic (ni len : Nat) :
    avoids (read_data_as_source_debug_extension ni len) .badMagic := by
  unfold read_data_as_source_debug_extension
  exact avoids_bind (avoids_readBytes (by decide)) (fun a => avoids_pure _ _)

theorem read_data_as_line_number_table_noBadMagic (ni len : Nat) :
    avoids (read_data_as_line_number_table ni len) .badMagic := by
  unfold read_data_as_line_number_table
  exact avoids_bind (avoids_readBytes (by decide))
    (fun a => avoids_bind (read_line_number_entries_noBadMagic _) (fun t => avoids_pure _ _))

theorem read_data_as_deprecated_noBadMagic (ni len : Nat) :
    avoids (read_data_as_deprecated ni len) .badMagic :=
  avoids_pure _ _

theorem read_data_as_bootstrap_methods_noBadMagic (ni len : Nat) :
    avoids (read_data_as_bootstrap_methods ni len) .badMagic := by
  unfold read_data_as_bootstrap_methods
  exact avoids_bind (avoids_readBytes (by decide))
    (fun a => avoids_bind (read_bootstrap_entries_noBadMagic _) (fun t => avoids_pure _ _))

set_option maxHeartbeats 3200000 in
/-- The attribute decoder (entry point, Code reader and list loop) never
produces `badMagic`. -/
theorem attributes_noBadMagic : ∀ fuel : Nat,
    (∀ pool : ConstantPoolContainer, avoids (AttributeInfo.new fuel pool) .badMagic) ∧
    (∀ (pool : ConstantPoolContainer) (ni len : Nat),
      avoids (read_data_as_code fuel pool ni len) .badMagic) ∧
    (∀ (pool : ConstantPoolContainer) (n : Nat),
      avoids (read_attributes_list fuel pool n) .badMagic) := by
  intro fuel
  induction fuel with
  | zero =>
      refine ⟨fun pool => avoids_fail (by decide), fun pool ni len => avoids_fail (by decide),
        fun pool n => ?_⟩
      cases n with
      | zero => rw [read_attributes_list_zero]; exact avoids_pure _ _
      | succ n => exact avoids_fail (by decide)
  | succ fuel ih =>
      refine ⟨?_, ?_, ?_⟩
      · intro pool
        unfold AttributeInfo.new
        refine avoids_bind (avoids_readBytes (by decide)) (fun a => ?_)
        refine avoids_bind (avoids_readBytes (by decide)) (fun b => ?_)
        intro r hcon
        dsimp only [] at hcon
        rcases hg : cpGet pool (to_u16 a) with _ | entry <;> rw [hg] at hcon <;>
          dsimp only [] at hcon
        · exact avoids_fail (by decide) r hcon
        rcases hu : entry.try_cast_into_utf8 with _ | u <;> rw [hu] at hcon <;>
          dsimp only [] at hcon
        · exact avoids_fail (by decide) r hcon
        simp only [apply_ite (fun g : DecM AttributeInfo => g r)] at hcon
        by_cases hn1 : u.string = nameConstantValue
        · rw [if_pos hn1] at hcon
          exact read_data_as_constant_value_noBadMagic _ _ r hcon
        rw [if_neg hn1] at hcon
        by_cases hn2 : u.string = nameCode
        · rw [if_pos hn2] at hcon
          exact ih.2.1 pool _ _ r hcon
        rw [if_neg hn2] at hcon
        by_cases hn3 : u.string = nameStackMapTable
        · rw [if_pos hn3] at hcon
          exact avoids_fail (by decide) r hcon
        rw [if_neg hn3] at hcon
        by_cases hn4 : u.string = nameExceptions
        · rw [if_pos hn4] at hcon
          exact read_data_as_exceptions_noBadMagic _ _ r hcon
        rw [if_neg hn4] at hcon
        by_cases hn5 : u.string = nameInnerClasses
        · rw [if_pos hn5] at hcon
          exact read_data_as_inner_classes_noBadMagic _ _ r hcon
        rw [if_neg hn5] at hcon
        by_cases hn6 : u.string = nameEnclosingMethod
        · rw [if_pos hn6] at hcon
          exact read_data_as_enclosing_method_noBadMagic _ _ r hcon
        rw [if_neg hn6] at hcon
        by_cases hn7 : u.string = nameSynthetic
        · rw [if_pos hn7] at hcon
          exact read_data_as_synthetic_noBadMagic _ _ r hcon
        rw [if_neg hn7] at hcon
        by_cases hn8 : u.string = nameSignature
        · rw [if_pos hn8] at hcon
          exact read_data_as_signature_noBadMagic _ _ r hcon
        rw [if_neg hn8] at hcon
        by_cases hn9 : u.string = nameSourceFile
        · rw [if_pos hn9] at hcon
          exact read_data_as_source_file_noBadMagic _ _ r hcon
        rw [if_neg hn9] at hcon
        by_cases hn10 : u.string = nameSourceDebugExtension
        · rw [if_pos hn10] at hcon
          exact read_data_as_source_debug_extension_noBadMagic _ _ r hcon
        rw [if_neg hn10] at hcon
        by_cases hn11 : u.string = nameLineNumberTable
        · rw [if_pos hn11] at hcon
          exact read_data_as_line_number_table_noBadMagic _ _ r hcon
        rw [if_neg hn11] at hcon
        by_cases hn12 : u.string = nameLocalVariableTable
        · rw [if_pos hn12] at hcon
          exact avoids_fail (by decide) r hcon
        rw [if_neg hn12] at hcon
        by_cases hn13 : u.string = nameLocalVariableTypeTable
        · rw [if_pos hn13] at hcon
          exact avoids_fail (by decide) r hcon
        rw [if_neg hn13] at hcon
        by_cases hn14 : u.string = nameDeprecated
        · rw [if_pos hn14] at hcon
          exact read_data_as_deprecated_noBadMagic _ _ r hcon
        rw [if_neg hn14] at hcon
        by_cases hn15 : u.string = nameRuntimeVisibleAnnotations
        · rw [if_pos hn15] at hcon
          exact avoids_fail (by decide) r hcon
        rw [if_neg hn15] at hcon
        by_cases hn16 : u.string = nameRuntimeInvisibleAnnotations
        · rw [if_pos hn16] at hcon
          exact avoids_fail (by decide) r hcon
        rw [if_neg hn16] at hcon
        by_cases hn17 : u.string = nameRuntimeVisibleParameterAnnotations
        · rw [if_pos hn17] at hcon
          exact avoids_fail (by decide) r hcon
        rw [if_neg hn17] at hcon
        by_cases hn18 : u.string = nameRuntimeInvisibleParameterAnnotations
        · rw [if_pos hn18] at hcon
          exact avoids_fail (by decide) r hcon
        rw [if_neg hn18] at hcon
        by_cases hn19 : u.string = nameRuntimeVisibleTypeAnnotations
        · rw [if_pos hn19] at hcon
          exact avoids_fail (by decide) r hcon
        rw [if_neg hn19] at hcon
        by_cases hn20 : u.string = nameRuntimeInvisibleTypeAnnotations
        · rw [if_pos hn20] at hcon
          exact avoids_fail (by decide) r hcon
        rw [if_neg hn20] at hcon
        by_cases hn21 : u.string = nameAnnotationDefault
        · rw [if_pos hn21] at hcon
          exact avoids_fail (by decide) r hcon
        rw [if_neg hn21] at hcon
        by_cases hn22 : u.string = nameBootstrapMethods
        · rw [if_pos hn22] at hcon
          exact read_data_as_bootstrap_methods_noBadMagic _ _ r hcon
        rw [if_neg hn22] at hcon
        by_cases hn23 : u.string = nameMethodParameters
        · rw [if_pos hn23] at hcon
          exact avoids_fail (by decide) r hcon
        rw [if_neg hn23] at hcon
        by_cases hn24 : u.string = nameModule
        · rw [if_pos hn24] at hcon
          exact avoids_fail (by decide) r hcon
        rw [if_neg hn24] at hcon
        by_cases hn25 : u.string = nameModulePackages
        · rw [if_pos hn25] at hcon
          exact avoids_fail (by decide) r hcon
        rw [if_neg hn25] at hcon
        by_cases hn26 : u.string = nameModuleMainClass
        · rw [if_pos hn26] at hcon
          exact avoids_fail (by decide) r hcon
        rw [if_neg hn26] at hcon
        by_cases hn27 : u.string = nameNestHost
        · rw [if_pos hn27] at hcon
          exact avoids_fail (by decide) r hcon
        rw [if_neg hn27] at hcon
        by_cases hn28 : u.string = nameNestMembers
        · rw [if_pos hn28] at hcon
          exact avoids_fail (by decide) r hcon
        rw [if_neg hn28] at hcon
        by_cases hn29 : u.string = nameRecord
        · rw [if_pos hn29] at hcon
          exact avoids_fail (by decide) r hcon
        rw [if_neg hn29] at hcon
        by_cases hn30 : u.string = namePermittedSubclasses
        · rw [if_pos hn30] at hcon
          exact avoids_fail (by decide) r hcon
        rw [if_neg hn30] at hcon
        exact avoids_fail (by decide) r hcon
      · intro pool ni len
        unfold read_data_as_code
        refine avoids_bind (avoids_readBytes (by decide)) (fun a => ?_)
        refine avoids_bind (avoids_readBytes (by decide)) (fun b => ?_)
        refine avoids_bind (avoids_readBytes (by decide)) (fun c => ?_)
        refine avoids_bind (avoids_readBytes (by decide)) (fun cb => ?_)
        refine avoids_bind (avoids_readBytes (by decide)) (fun d => ?_)
        refine avoids_bind (read_exception_table_noBadMagic _) (fun et => ?_)
        refine avoids_bind (avoids_readBytes (by decide)) (fun f => ?_)
        exact avoids_bind (ih.2.2 pool _) (fun ats => avoids_pure _ _)
      · intro pool n
        cases n with
        | zero => rw [read_attributes_list_zero]; exact avoids_pure _ _
        | succ n =>
            rw [read_attributes_list_succ]
            exact avoids_bind (ih.1 pool)
              (fun a => avoids_bind (ih.2.2 pool n) (fun rest => avoids_pure _ _))

theorem fieldInfo_new_noBadMagic (fuel : Nat) (pool : ConstantPoolContainer) :
    avoids (FieldInfo.new fuel pool) .badMagic := by
  unfold FieldInfo.new
  refine avoids_bind (avoids_readBytes (by decide)) (fun a => ?_)
  refine avoids_bind (avoids_liftE (fun hx =>
    absurd (field_from_u16_error hx) (by decide))) (fun fl => ?_)
  refine avoids_bind (avoids_readBytes (by decide)) (fun b => ?_)
  refine avoids_bind (avoids_readBytes (by decide)) (fun c => ?_)
  refine avoids_bind (avoids_readBytes (by decide)) (fun d => ?_)
  exact avoids_bind ((attributes_noBadMagic fuel).2.2 pool _) (fun ats => avoids_pure _ _)

theorem methodInfo_new_noBadMagic (fuel : Nat) (pool : ConstantPoolContainer) :
    avoids (MethodInfo.new fuel pool) .badMagic := by
  unfold MethodInfo.new
  refine avoids_bind (avoids_readBytes (by decide)) (fun a => ?_)
  refine avoids_bind (avoids_liftE (fun hx =>
    absurd (method_from_u16_error hx) (by decide))) (fun fl => ?_)
  refine avoids_bind (avoids_readBytes (by decide)) (fun b => ?_)
  refine avoids_bind (avoids_readBytes (by decide)) (fun c => ?_)
  refine avoids_bind (avoids_readBytes (by decide)) (fun d => ?_)
  exact avoids_bind ((attributes_noBadMagic fuel).2.2 pool _) (fun ats => avoids_pure _ _)

theorem read_fields_list_noBadMagic (fuel : Nat) (pool : ConstantPoolContainer) :
    ∀ n : Nat, avoids (read_fields_list fuel pool n) .badMagic := by
  intro n
  induction n with
  | zero => exact avoids_pure _ _
  | succ n ih =>
      unfold read_fields_list
      exact avoids_bind (fieldInfo_new_noBadMagic fuel pool)
        (fun f => avoids_bind ih (fun rest => avoids_pure _ _))

theorem read_methods_list_noBadMagic (fuel : Nat) (pool : ConstantPoolContainer) :
    ∀ n : Nat, avoids (read_methods_list fuel pool n) .badMagic := by
  intro n
  induction n with
  | zero => exact avoids_pure _ _
  | succ n ih =>
      unfold read_methods_list
      exact avoids_bind (methodInfo_new_noBadMagic fuel pool)
        (fun m => avoids_bind ih (fun rest => avoids_pure _ _))

theorem read_interfaces_list_noBadMagic (pool : ConstantPoolContainer) :
    ∀ n : Nat, avoids (read_interfaces_list pool n) .badMagic := by
  intro n
  induction n with
  | zero => exact avoids_pure _ _
  | succ n ih =>
      unfold read_interfaces_list
      refine avoids_bind (avoids_readBytes (by decide)) (fun a => ?_)
      dsimp only []
      repeat' split
      all_goals first
        | exact avoids_fail (by decide)
        | exact avoids_bind ih (fun rest => avoids_pure _ _)

theorem read_constant_pool_loop_noBadMagic (count : Nat) : ∀ (fuel index : Nat)
    (pool : ConstantPoolContainer),
    avoids (read_constant_pool_loop count fuel index pool) .badMagic := by
  intro fuel
  induction fuel with
  | zero =>
      intro index pool
      unfold read_constant_pool_loop
      split
      · exact avoids_fail (by decide)
      · exact avoids_pure _ _
  | succ fuel ih =>
      intro index pool
      unfold read_constant_pool_loop
      split
      · exact avoids_bind (constantPoolInfo_new_avoids index (by decide) (by decide))
          (fun info => ih _ _)
      · exact avoids_pure _ _

theorem read_constant_pool_noBadMagic : avoids ClassFile.read_constant_pool .badMagic := by
  unfold ClassFile.read_constant_pool
  exact avoids_bind (avoids_readBytes (by decide))
    (fun a => read_constant_pool_loop_noBadMagic _ _ _ _)

theorem read_u16_noBadMagic : avoids ClassFile.read_u16 .badMagic := by
  unfold ClassFile.read_u16
  exact avoids_bind (avoids_readBytes (by decide)) (fun a => avoids_pure _ _)

theorem read_access_flags_noBadMagic : avoids ClassFile.read_access_flags .badMagic := by
  unfold ClassFile.read_access_flags
  exact avoids_bind (avoids_readBytes (by decide))
    (fun a => avoids_liftE (fun hx => absurd (class_from_u16_error hx) (by decide)))

theorem read_this_class_noBadMagic (pool : ConstantPoolContainer) :
    avoids (ClassFile.read_this_class pool) .badMagic := by
  unfold ClassFile.read_this_class
  refine avoids_bind (avoids_readBytes (by decide)) (fun a => ?_)
  dsimp only []
  repeat' split
  all_goals first
    | exact avoids_fail (by decide)
    | exact avoids_pure _ _

theorem read_super_class_noBadMagic (pool : ConstantPoolContainer) :
    avoids (ClassFile.read_super_class pool) .badMagic := by
  unfold ClassFile.read_super_class
  refine avoids_bind (avoids_readBytes (by decide)) (fun a => ?_)
  dsimp only []
  repeat' split
  all_goals first
    | exact avoids_fail (by decide)
    | exact avoids_pure _ _

theorem read_interfaces_noBadMagic (pool : ConstantPoolContainer) :
    avoids (ClassFile.read_interfaces pool) .badMagic := by
  unfold ClassFile.read_interfaces
  exact avoids_bind (avoids_readBytes (by decide))
    (fun a => read_interfaces_list_noBadMagic pool _)

theorem read_fields_noBadMagic (fuel : Nat) (pool : ConstantPoolContainer) :
    avoids (ClassFile.read_fields fuel pool) .badMagic := by
  unfold ClassFile.read_fields
  exact avoids_bind (avoids_readBytes (by decide))
    (fun a => read_fields_list_noBadMagic fuel pool _)

theorem read_methods_noBadMagic (fuel : Nat) (pool : ConstantPoolContainer) :
    avoids (ClassFile.read_methods fuel pool) .badMagic := by
  unfold ClassFile.read_methods
  exact avoids_bind (avoids_readBytes (by decide))
    (fun a => read_methods_list_noBadMagic fuel pool _)

theorem read_class_attributes_noBadMagic (fuel : Nat) (pool : ConstantPoolContainer) :
    avoids (ClassFile.read_attributes fuel pool) .badMagic := by
  unfold ClassFile.read_attributes
  exact avoids_bind (avoids_readBytes (by decide))
    (fun a => (attributes_noBadMagic fuel).2.2 pool _)

/-- A bad magic value makes `read_magic_number` fail with `badMagic`. -/
theorem read_magic_number_bad {r r1 : ByteReader} {bs : List Nat}
    (h : r.read_n_bytes 4 = (r1, some bs)) (hm : to_u32 bs ≠ MAGIC_NUMBER) :
    ClassFile.read_magic_number r = .error .badMagic := by
  unfold ClassFile.read_magic_number
  rw [bind_apply_ok (readBytes_ok h), if_neg hm]
  rfl

/-- A good magic value makes `read_magic_number` succeed with it. -/
theorem read_magic_number_good {r r1 : ByteReader} {bs : List Nat}
    (h : r.read_n_bytes 4 = (r1, some bs)) (hm : to_u32 bs = MAGIC_NUMBER) :
    ClassFile.read_magic_number r = .ok (MAGIC_NUMBER, r1) := by
  unfold ClassFile.read_magic_number
  rw [bind_apply_ok (readBytes_ok h), if_pos hm, hm]
  rfl

/-- Whenever `read_magic_number` succeeds, the returned value is the magic
constant. -/
theorem read_magic_number_ok_inv {r r1 : ByteReader} {m : Nat}
    (h : ClassFile.read_magic_number r = .ok (m, r1)) : m = MAGIC_NUMBER := by
  unfold ClassFile.read_magic_number at h
  cases hb : readBytes 4 r with
  | error e =>
      rw [bind_apply, hb] at h
      exact Except.noConfusion h
  | ok p =>
      obtain ⟨bs, r2⟩ := p
      rw [bind_apply_ok hb] at h
      by_cases hm : to_u32 bs = MAGIC_NUMBER
      · rw [if_pos hm, pure_apply] at h
        injection h with h2
        injection h2 with h3 h4
        rw [← h3, hm]
      · rw [if_neg hm] at h
        exact Except.noConfusion h

/-- Reading the first four bytes of a buffer with at least four bytes. -/
theorem read_first_four {data : List Nat} (h : 4 ≤ data.length) :
    (⟨data, 0⟩ : ByteReader).read_n_bytes 4 = (⟨data, 4⟩, some (data.take 4)) := by
  unfold ByteReader.read_n_bytes
  rw [if_pos (by simpa using h)]
  simp

/-- C7: top-level decoding of a buffer with at least four bytes fails with
`badMagic` exactly when the first four bytes, read big-endian, differ from
0xCAFEBABE (no later stage of the pipeline can produce `badMagic`); and
whenever decoding succeeds, the model's `magic` field equals 0xCAFEBABE. -/
theorem c7_bad_magic :
    (∀ (data : List Nat) (fuel : Nat), 4 ≤ data.length →
        to_u32 (data.take 4) ≠ 0xCAFEBABE →
        ClassFile.new fuel ⟨data, 0⟩ = .error .badMagic) ∧
    (∀ (data : List Nat) (fuel : Nat), 4 ≤ data.length →
        ClassFile.new fuel ⟨data, 0⟩ = .error .badMagic →
        to_u32 (data.take 4) ≠ 0xCAFEBABE) ∧
    (∀ (fuel : Nat) (r r2 : ByteReader) (cf : ClassFile),
        ClassFile.new fuel r = .ok (cf, r2) → cf.magic = 0xCAFEBABE) := by
  refine ⟨?_, ?_, ?_⟩
  · intro data fuel hlen hbad
    unfold ClassFile.new
    rw [bind_apply, read_magic_number_bad (read_first_four hlen) hbad]
  · intro data fuel hlen hc hmag
    unfold ClassFile.new at hc
    rw [bind_apply_ok (read_magic_number_good (read_first_four hlen) hmag)] at hc
    revert hc
    refine avoids_bind read_u16_noBadMagic (fun minor => ?_) _
    refine avoids_bind read_u16_noBadMagic (fun major => ?_)
    refine avoids_bind read_constant_pool_noBadMagic (fun pool => ?_)
    refine avoids_bind read_access_flags_noBadMagic (fun flags => ?_)
    refine avoids_bind (read_this_class_noBadMagic pool) (fun tc => ?_)
    refine avoids_bind (read_super_class_noBadMagic pool) (fun sc => ?_)
    refine avoids_bind (read_interfaces_noBadMagic pool) (fun ifs => ?_)
    refine avoids_bind (read_fields_noBadMagic fuel pool) (fun fs => ?_)
    refine avoids_bind (read_methods_noBadMagic fuel pool) (fun ms => ?_)
    refine avoids_bind (read_class_attributes_noBadMagic fuel pool) (fun ats => ?_)
    exact avoids_pure _ _
  · intro fuel r r2 cf hc
    unfold ClassFile.new at hc
    obtain ⟨m, r1, hm, hc⟩ := bind_ok_inv hc
    have hmv := read_magic_number_ok_inv hm
    obtain ⟨minor, rA, _, hc⟩ := bind_ok_inv hc
    obtain ⟨major, rB, _, hc⟩ := bind_ok_inv hc
    obtain ⟨pool, rC, _, hc⟩ := bind_ok_inv hc
    obtain ⟨flags, rD, _, hc⟩ := bind_ok_inv hc
    obtain ⟨tc, rE, _, hc⟩ := bind_ok_inv hc
    obtain ⟨sc, rF, _, hc⟩ := bind_ok_inv hc
    obtain ⟨ifs, rG, _, hc⟩ := bind_ok_inv hc
    obtain ⟨fs, rH, _, hc⟩ := bind_ok_inv hc
    obtain ⟨ms, rI, _, hc⟩ := bind_ok_inv hc
    obtain ⟨ats, rJ, _, hc⟩ := bind_ok_inv hc
    rw [pure_apply] at hc
    injection hc with h2
    injection h2 with h3 h4
    rw [← h3, hmv]
    rfl

/-- Witness for C7: scenario 1's all-zero input fails with BadMagic (and its
first four bytes differ from the magic); a 27-byte minimal class file
(magic, version 0.61, one-entry pool holding a Class constant, flags
0x0021, this_class = 1, no super/interfaces/fields/methods/attributes)
decodes successfully and its model's magic is 0xCAFEBABE. -/
theorem c7_bad_magic_witness :
    ClassFile.new 1 ⟨[0, 0, 0, 0], 0⟩ = .error .badMagic ∧
    to_u32 ([0, 0, 0, 0].take 4) ≠ 0xCAFEBABE ∧
    (⟨0xCAFEBABE, 0, 61, [(1, .constantClass ⟨1, 0⟩)], [.AccPublic, .AccSuper],
      ⟨1, 0⟩, none, [], [], [], []⟩ : ClassFile).magic = 0xCAFEBABE :=
  ⟨c7_bad_magic.1 [0, 0, 0, 0] 1 (by decide) (by decide),
   c7_bad_magic.2.1 [0, 0, 0, 0] 1 (by decide)
     (c7_bad_magic.1 [0, 0, 0, 0] 1 (by decide) (by decide)),
   c7_bad_magic.2.2 1
     ⟨[202, 254, 186, 190, 0, 0, 0, 61, 0, 2, 7, 0, 0, 0, 33, 0, 1,
       0, 0, 0, 0, 0, 0, 0, 0, 0, 0], 0⟩
     ⟨[202, 254, 186, 190, 0, 0, 0, 61, 0, 2, 7, 0, 0, 0, 33, 0, 1,
       0, 0, 0, 0, 0, 0, 0, 0, 0, 0], 27⟩
     ⟨0xCAFEBABE, 0, 61, [(1, .constantClass ⟨1, 0⟩)], [.AccPublic, .AccSuper],
      ⟨1, 0⟩, none, [], [], [], []⟩ rfl⟩

end Jadis
